import Mathlib

/-
Verification of the swap-batching utilities in
tf_quant_finance/experimental/pricing_platform/framework/rate_instruments/
interest_rate_swap/proto_utils.py.

Shallow embedding notes:
* Proto enum codes (currency, day-count convention, business-day convention,
  bank holidays, frequency type, rate-index type) are modelled as Int, proto
  amounts and settlement days as Int.
* decimal_to_double values (notional_amount, fixed_rate, spread) are modelled
  as Int: the module only wraps them in singleton lists, concatenates those
  lists and negates elements, so no floating-point behaviour is relevant.
* The Python None sentinel used inside batching key vectors is modelled by the
  constructor KeyVal.none; every concrete key entry is KeyVal.num.
* The md5/json digest produced by the hashing helper is modelled as the key
  tuple itself: the digest is used only as a dictionary key and the module
  treats it as an injective fingerprint of the tuple.
* Python dictionaries (which preserve insertion order) are modelled as
  association lists, with lookup returning the first matching entry.
* In-place mutation with a possible exception is modelled by returning the
  post-call state of the mutated object together with an optional error
  message: raising before any field assignment yields the unchanged object.
-/

namespace ProtoUtils

/-- Frequency message: a type code and an amount. -/
structure Frequency where
  type : Int
  amount : Int
deriving DecidableEq, Repr

/-- RateIndex proto message: type code plus scalar name and source. -/
structure RateIndexProto where
  type : Int
  name : String
  source : String
deriving DecidableEq, Repr

/-- FixedLeg proto message. -/
structure FixedLeg where
  currency : Int
  coupon_frequency : Frequency
  notional_amount : Int
  fixed_rate : Int
  settlement_days : Int
  business_day_convention : Int
  daycount_convention : Int
  bank_holidays : Int
deriving DecidableEq, Repr

/-- FloatingLeg proto message. -/
structure FloatingLeg where
  currency : Int
  coupon_frequency : Frequency
  reset_frequency : Frequency
  notional_amount : Int
  floating_rate_type : RateIndexProto
  settlement_days : Int
  business_day_convention : Int
  daycount_convention : Int
  spread : Int
  bank_holidays : Int
deriving DecidableEq, Repr

/-- SwapLeg proto: tagged union, HasField("fixed_leg") selects the branch. -/
inductive SwapLeg where
  | fixed : FixedLeg → SwapLeg
  | floating : FloatingLeg → SwapLeg
deriving DecidableEq, Repr

/-- Date proto message with year, month, day. -/
structure DateProto where
  year : Int
  month : Int
  day : Int
deriving DecidableEq, Repr

/-- Swap metadata: identifier string and instrument-type tag. -/
structure SwapMetadata where
  id : String
  instrument_type : Int
deriving DecidableEq, Repr

/-- InterestRateSwap proto message (the fields proto_utils reads). -/
structure InterestRateSwap where
  pay_leg : SwapLeg
  receive_leg : SwapLeg
  currency : Int
  bank_holidays : Int
  effective_date : DateProto
  maturity_date : DateProto
  metadata : SwapMetadata
deriving DecidableEq, Repr

/-- Entry of a batching key vector: either the Python None sentinel used to
pad the absent leg kind, or a concrete numeric feature. -/
inductive KeyVal where
  | none : KeyVal
  | num : Int → KeyVal
deriving DecidableEq, Repr

/-- Converts frequency type to MONTH and returns the computed multiplier
(source: frequency type 5 becomes 3; the multiplier is always 1). -/
def frequency_and_multiplier (freq_type : Int) : Int × Int :=
  if freq_type = 5 then (3, 1) else (freq_type, 1)

/-- Digest of a key tuple. The source computes an md5 hex digest of the
json-serialised tuple and uses it purely as a dictionary key; the embedding
represents that digest by the key tuple itself (an injective fingerprint). -/
def hasher (obj : List KeyVal) : List KeyVal := obj

/-- Key of a fixed leg for the legacy batching scheme. -/
def fixed_leg_key (leg : FixedLeg) : List KeyVal :=
  [KeyVal.num leg.coupon_frequency.type, KeyVal.num leg.coupon_frequency.amount,
   KeyVal.num leg.daycount_convention, KeyVal.num leg.business_day_convention]

/-- Key of a floating leg for the legacy batching scheme. -/
def floating_leg_key (leg : FloatingLeg) : List KeyVal :=
  [KeyVal.num leg.coupon_frequency.type, KeyVal.num leg.coupon_frequency.amount,
   KeyVal.num leg.reset_frequency.type, KeyVal.num leg.reset_frequency.amount,
   KeyVal.num leg.daycount_convention, KeyVal.num leg.business_day_convention,
   KeyVal.num leg.floating_rate_type.type]

/-- Computes key values for a function that partitions swaps into batches
(legacy): a fixed leg fills the fixed slot and pads the floating slot with
seven None entries; a floating leg pads the fixed slot with four None
entries. -/
def get_keys (leg : SwapLeg) : List KeyVal × List KeyVal :=
  match leg with
  | SwapLeg.fixed fixedLeg => (fixed_leg_key fixedLeg, List.replicate 7 KeyVal.none)
  | SwapLeg.floating floatingLeg => (List.replicate 4 KeyVal.none, floating_leg_key floatingLeg)

/-- Tests whether the first entry of a key list is the None sentinel; this is
the Python check key[0] is None. -/
def keyHeadIsNone : List KeyVal → Bool
  | KeyVal.none :: _ => true
  | _ => false

/-- Computes the legacy hash key for the two legs: concatenates the pay key
then the receive key, flipping to receive-then-pay exactly when the pay leg's
fixed slot is None and the receive leg's fixed slot is not. -/
def get_legs_hash_key (leg_1 leg_2 : SwapLeg) : Bool × List KeyVal :=
  let pay_keys := get_keys leg_1
  let receive_keys := get_keys leg_2
  let key_1 := pay_keys.1 ++ pay_keys.2
  let key_2 := receive_keys.1 ++ receive_keys.2
  let flip_legs := keyHeadIsNone pay_keys.1 && !(keyHeadIsNone receive_keys.1)
  if flip_legs then (flip_legs, key_2 ++ key_1) else (flip_legs, key_1 ++ key_2)

/-- Key of a fixed leg for the refined batching scheme: normalises frequency
type 5 to 3 and drops the raw frequency amount. -/
def fixed_leg_key_v2 (leg : FixedLeg) : List KeyVal :=
  let coupon_freq_type := if leg.coupon_frequency.type = 5 then 3 else leg.coupon_frequency.type
  [KeyVal.num coupon_freq_type,
   KeyVal.num leg.daycount_convention, KeyVal.num leg.business_day_convention]

/-- Key of a floating leg for the refined batching scheme: normalised coupon
and reset frequency types, day count and business day convention (the raw
amounts and the rate-index type are not part of this key). -/
def floating_leg_key_v2 (leg : FloatingLeg) : List KeyVal :=
  let coupon_freq_type := (frequency_and_multiplier leg.coupon_frequency.type).1
  let reset_freq_type := (frequency_and_multiplier leg.reset_frequency.type).1
  [KeyVal.num coupon_freq_type, KeyVal.num reset_freq_type,
   KeyVal.num leg.daycount_convention, KeyVal.num leg.business_day_convention]

/-- Computes key values for the refined partition scheme: a fixed leg pads the
floating slot with four None entries, a floating leg pads the fixed slot with
three. -/
def get_keys_v2 (leg : SwapLeg) : List KeyVal × List KeyVal :=
  match leg with
  | SwapLeg.fixed fixedLeg => (fixed_leg_key_v2 fixedLeg, List.replicate 4 KeyVal.none)
  | SwapLeg.floating floatingLeg => (List.replicate 3 KeyVal.none, floating_leg_key_v2 floatingLeg)

/-- Computes the refined hash key for the two legs; same flip rule as the
legacy version. -/
def get_legs_hash_key_v2 (leg_1 leg_2 : SwapLeg) : Bool × List KeyVal :=
  let pay_keys := get_keys_v2 leg_1
  let receive_keys := get_keys_v2 leg_2
  let key_1 := pay_keys.1 ++ pay_keys.2
  let key_2 := receive_keys.1 ++ receive_keys.2
  let flip_legs := keyHeadIsNone pay_keys.1 && !(keyHeadIsNone receive_keys.1)
  if flip_legs then (flip_legs, key_2 ++ key_1) else (flip_legs, key_1 ++ key_2)

/-- Computes the legacy hash key for the batching strategy: the canonical leg
key plus the swap-level currency and bank holidays, fed to the hasher;
returns the digest and the flip flag. -/
def get_hash (swap_proto : InterestRateSwap) : List KeyVal × Bool :=
  let fk := get_legs_hash_key swap_proto.pay_leg swap_proto.receive_leg
  (hasher (fk.2 ++ [KeyVal.num swap_proto.currency, KeyVal.num swap_proto.bank_holidays]), fk.1)

/-- Computes the refined hash key for the batching strategy: the canonical leg
key plus the swap-level bank holidays only (the swap-level currency is not
hashed in this version). -/
def get_hash_v2 (swap_proto : InterestRateSwap) : List KeyVal × Bool :=
  let fk := get_legs_hash_key_v2 swap_proto.pay_leg swap_proto.receive_leg
  (hasher (fk.2 ++ [KeyVal.num swap_proto.bank_holidays]), fk.1)

/-- True when the proto leg is the fixed variant. -/
def protoIsFixed : SwapLeg → Bool
  | SwapLeg.fixed _ => true
  | SwapLeg.floating _ => false

/-- Materialised rate index: type code plus name and source sequences (one
entry per swap folded into the batch). -/
structure RateIndex where
  type : Int
  name : List String
  source : List String
deriving DecidableEq, Repr

/-- FixedCouponSpecs as built by leg_from_proto (legacy pipeline): scalar
currency and raw frequency, numeric fields as sequences. -/
structure FixedCouponSpecs where
  currency : Int
  coupon_frequency : Frequency
  notional_amount : List Int
  fixed_rate : List Int
  settlement_days : List Int
  businessday_rule : Int
  daycount_convention : Int
  calendar : Int
deriving DecidableEq, Repr

/-- FloatCouponSpecs as built by leg_from_proto (legacy pipeline). -/
structure FloatCouponSpecs where
  currency : Int
  coupon_frequency : Frequency
  reset_frequency : Frequency
  notional_amount : List Int
  floating_rate_type : RateIndex
  settlement_days : List Int
  businessday_rule : Int
  daycount_convention : Int
  spread : List Int
  calendar : Int
deriving DecidableEq, Repr

/-- Union of the two legacy coupon-spec variants, dispatched on by the
isinstance checks of update_leg. -/
inductive CouponLeg where
  | fixed : FixedCouponSpecs → CouponLeg
  | float : FloatCouponSpecs → CouponLeg
deriving DecidableEq, Repr

/-- FixedCouponSpecs as built by leg_from_proto_v2 (refined pipeline):
currency as a sequence and coupon frequency as a normalised type together
with a sequence of multiplied amounts. -/
structure FixedCouponSpecsV2 where
  currency : List Int
  coupon_frequency : Int × List Int
  notional_amount : List Int
  fixed_rate : List Int
  settlement_days : List Int
  businessday_rule : Int
  daycount_convention : Int
  calendar : Int
deriving DecidableEq, Repr

/-- FloatCouponSpecs as built by leg_from_proto_v2 (refined pipeline):
the floating rate type is a sequence of materialised rate indices. -/
structure FloatCouponSpecsV2 where
  currency : List Int
  coupon_frequency : Int × List Int
  reset_frequency : Int × List Int
  notional_amount : List Int
  floating_rate_type : List RateIndex
  settlement_days : List Int
  businessday_rule : Int
  daycount_convention : Int
  spread : List Int
  calendar : Int
deriving DecidableEq, Repr

/-- Union of the two refined coupon-spec variants. -/
inductive CouponLegV2 where
  | fixed : FixedCouponSpecsV2 → CouponLegV2
  | float : FloatCouponSpecsV2 → CouponLegV2
deriving DecidableEq, Repr

/-- Initialises coupon specifications from a proto instance (legacy): numeric
scalars are wrapped as singleton sequences; for a floating leg the rate-index
name and source are wrapped as singleton sequences too. -/
def leg_from_proto (leg_proto : SwapLeg) : CouponLeg :=
  match leg_proto with
  | SwapLeg.fixed leg =>
      CouponLeg.fixed
        { currency := leg.currency
          coupon_frequency := leg.coupon_frequency
          notional_amount := [leg.notional_amount]
          fixed_rate := [leg.fixed_rate]
          settlement_days := [leg.settlement_days]
          businessday_rule := leg.business_day_convention
          daycount_convention := leg.daycount_convention
          calendar := leg.bank_holidays }
  | SwapLeg.floating leg =>
      CouponLeg.float
        { currency := leg.currency
          coupon_frequency := leg.coupon_frequency
          reset_frequency := leg.reset_frequency
          notional_amount := [leg.notional_amount]
          floating_rate_type :=
            { type := leg.floating_rate_type.type
              name := [leg.floating_rate_type.name]
              source := [leg.floating_rate_type.source] }
          settlement_days := [leg.settlement_days]
          businessday_rule := leg.business_day_convention
          daycount_convention := leg.daycount_convention
          spread := [leg.spread]
          calendar := leg.bank_holidays }

/-- Initialises coupon specifications from a proto instance (refined): the
currency is wrapped as a singleton sequence and every frequency is stored as
its normalised type together with the singleton sequence of multiplier times
raw amount. -/
def leg_from_proto_v2 (leg_proto : SwapLeg) : CouponLegV2 :=
  match leg_proto with
  | SwapLeg.fixed leg =>
      let cf := frequency_and_multiplier leg.coupon_frequency.type
      CouponLegV2.fixed
        { currency := [leg.currency]
          coupon_frequency := (cf.1, [cf.2 * leg.coupon_frequency.amount])
          notional_amount := [leg.notional_amount]
          fixed_rate := [leg.fixed_rate]
          settlement_days := [leg.settlement_days]
          businessday_rule := leg.business_day_convention
          daycount_convention := leg.daycount_convention
          calendar := leg.bank_holidays }
  | SwapLeg.floating leg =>
      let cf := frequency_and_multiplier leg.coupon_frequency.type
      let rf := frequency_and_multiplier leg.reset_frequency.type
      CouponLegV2.float
        { currency := [leg.currency]
          coupon_frequency := (cf.1, [cf.2 * leg.coupon_frequency.amount])
          reset_frequency := (rf.1, [rf.2 * leg.reset_frequency.amount])
          notional_amount := [leg.notional_amount]
          floating_rate_type :=
            [{ type := leg.floating_rate_type.type
               name := [leg.floating_rate_type.name]
               source := [leg.floating_rate_type.source] }]
          settlement_days := [leg.settlement_days]
          businessday_rule := leg.business_day_convention
          daycount_convention := leg.daycount_convention
          spread := [leg.spread]
          calendar := leg.bank_holidays }

/-- Errors raised by the merge operations: the fixed-versus-float kind
mismatch of update_leg and update_leg_v2, and the incompatible-index error of
update_rate_index carrying both index types. Each constructor stands for one
distinct ValueError message of the source, rendered by renderMergeErr. -/
inductive MergeErr where
  | typeMismatch : MergeErr
  | cannotJoin : Int → Int → MergeErr
deriving DecidableEq, Repr

/-- Verbatim messages of the source's ValueError raises: the kind-mismatch
text of update_leg, and the f-string of update_rate_index naming both index
types. -/
def renderMergeErr : MergeErr → String
  | MergeErr.typeMismatch =>
      "Both `current_leg` and `leg` should beof the same fixed or float type."
  | MergeErr.cannotJoin t1 t2 =>
      "Can not join " ++ toString t1 ++ " and " ++ toString t2

/-- Merges a new rate index into the current one: raises (before any
mutation) when the types differ, otherwise concatenates the name and source
sequences. Returns the post-call state of the current index together with the
optional error. -/
def update_rate_index (current_index index : RateIndex) : RateIndex × Option MergeErr :=
  if current_index.type ≠ index.type then
    (current_index, some (MergeErr.cannotJoin current_index.type index.type))
  else
    ({ current_index with
        name := current_index.name ++ index.name
        source := current_index.source ++ index.source }, none)

/-- Adds new leg info to the current leg (legacy): raises on a fixed/float
kind mismatch before mutating anything; in the floating branch the notional
is appended before the rate-index merge, so an index-type error leaves the
notional already extended. Returns the post-call current leg and the optional
error. -/
def update_leg (current_leg leg : CouponLeg) : CouponLeg × Option MergeErr :=
  match current_leg, leg with
  | CouponLeg.fixed c, CouponLeg.fixed l =>
      (CouponLeg.fixed
        { c with
            notional_amount := c.notional_amount ++ l.notional_amount
            fixed_rate := c.fixed_rate ++ l.fixed_rate
            settlement_days := c.settlement_days ++ l.settlement_days }, none)
  | CouponLeg.fixed c, CouponLeg.float _ =>
      (CouponLeg.fixed c, some MergeErr.typeMismatch)
  | CouponLeg.float c, CouponLeg.fixed _ =>
      (CouponLeg.float c, some MergeErr.typeMismatch)
  | CouponLeg.float c, CouponLeg.float l =>
      let c1 := { c with notional_amount := c.notional_amount ++ l.notional_amount }
      let ri := update_rate_index c1.floating_rate_type l.floating_rate_type
      match ri.2 with
      | some msg => (CouponLeg.float c1, some msg)
      | none =>
          (CouponLeg.float
            { c1 with
                floating_rate_type := ri.1
                settlement_days := c1.settlement_days ++ l.settlement_days
                spread := c1.spread ++ l.spread }, none)

/-- Adds new leg info to the current leg (refined): raises on a fixed/float
kind mismatch before mutating anything; otherwise concatenates currency,
notional, rate or spread, settlement days, frequency-amount sequences and, on
the floating branch, the rate-index sequence (no index-type check in this
version). -/
def update_leg_v2 (current_leg leg : CouponLegV2) : CouponLegV2 × Option MergeErr :=
  match current_leg, leg with
  | CouponLegV2.fixed c, CouponLegV2.fixed l =>
      (CouponLegV2.fixed
        { c with
            currency := c.currency ++ l.currency
            notional_amount := c.notional_amount ++ l.notional_amount
            fixed_rate := c.fixed_rate ++ l.fixed_rate
            settlement_days := c.settlement_days ++ l.settlement_days
            coupon_frequency :=
              (c.coupon_frequency.1, c.coupon_frequency.2 ++ l.coupon_frequency.2) }, none)
  | CouponLegV2.fixed c, CouponLegV2.float _ =>
      (CouponLegV2.fixed c, some MergeErr.typeMismatch)
  | CouponLegV2.float c, CouponLegV2.fixed _ =>
      (CouponLegV2.float c, some MergeErr.typeMismatch)
  | CouponLegV2.float c, CouponLegV2.float l =>
      (CouponLegV2.float
        { c with
            currency := c.currency ++ l.currency
            notional_amount := c.notional_amount ++ l.notional_amount
            floating_rate_type := c.floating_rate_type ++ l.floating_rate_type
            settlement_days := c.settlement_days ++ l.settlement_days
            spread := c.spread ++ l.spread
            coupon_frequency :=
              (c.coupon_frequency.1, c.coupon_frequency.2 ++ l.coupon_frequency.2)
            reset_frequency :=
              (c.reset_frequency.1, c.reset_frequency.2 ++ l.reset_frequency.2) }, none)

/-- Negates every element of the notional sequence of a legacy coupon leg
(the flip branch of from_protos). -/
def negNotional : CouponLeg → CouponLeg
  | CouponLeg.fixed c =>
      CouponLeg.fixed { c with notional_amount := c.notional_amount.map (fun el => -el) }
  | CouponLeg.float c =>
      CouponLeg.float { c with notional_amount := c.notional_amount.map (fun el => -el) }

/-- Negates every element of the notional sequence of a refined coupon leg. -/
def negNotionalV2 : CouponLegV2 → CouponLegV2
  | CouponLegV2.fixed c =>
      CouponLegV2.fixed { c with notional_amount := c.notional_amount.map (fun el => -el) }
  | CouponLegV2.float c =>
      CouponLegV2.float { c with notional_amount := c.notional_amount.map (fun el => -el) }

/-- Start or maturity date as stored by from_protos: the list
[year, month, day]. -/
def dateToList (d : DateProto) : List Int := [d.year, d.month, d.day]

/-- Batch record stored per hash by from_protos, parametrised by the
swap-config type (from_protos stores the config it was given). -/
structure SwapBatch (Cfg : Type) where
  start_date : List (List Int)
  maturity_date : List (List Int)
  pay_leg : CouponLeg
  receive_leg : CouponLeg
  swap_config : Cfg
  batch_names : List (String × Int)
deriving DecidableEq, Repr

/-- Batch record stored per hash by from_protos_v2. -/
structure SwapBatchV2 (Cfg : Type) where
  start_date : List (List Int)
  maturity_date : List (List Int)
  pay_leg : CouponLegV2
  receive_leg : CouponLegV2
  swap_config : Cfg
  batch_names : List (String × Int)
deriving DecidableEq, Repr

/-- Insertion-ordered dictionary keyed by hash digests, modelled as an
association list. -/
abbrev BatchMap (α : Type) : Type := List (List KeyVal × α)

/-- Dictionary lookup: the first entry with the given key. -/
def lookupBatch {α : Type} (m : BatchMap α) (h : List KeyVal) : Option α :=
  match m with
  | [] => Option.none
  | p :: rest => if p.1 = h then some p.2 else lookupBatch rest h

/-- Dictionary update of an existing key: replaces the value at every entry
with that key, leaving all other entries unchanged. -/
def updateBatch {α : Type} (m : BatchMap α) (h : List KeyVal) (b : α) : BatchMap α :=
  match m with
  | [] => []
  | p :: rest => (if p.1 = h then (h, b) else p) :: updateBatch rest h b

/-- One iteration of the group_protos loop: appends the swap to its hash
bucket, creating the bucket on first sight. -/
def groupStep (m : BatchMap (List InterestRateSwap)) (swap_proto : InterestRateSwap) :
    BatchMap (List InterestRateSwap) :=
  let h := (get_hash swap_proto).1
  match lookupBatch m h with
  | some swaps => updateBatch m h (swaps ++ [swap_proto])
  | Option.none => m ++ [(h, [swap_proto])]

/-- Creates a dictionary of grouped protos (legacy hashing). The swap_config
argument is deleted at entry in the source and has no effect. -/
def group_protos {Cfg : Type} (proto_list : List InterestRateSwap) (swap_config : Cfg) :
    BatchMap (List InterestRateSwap) :=
  let _ := swap_config
  proto_list.foldl groupStep []

/-- One iteration of the group_protos_v2 loop. -/
def groupStepV2 (m : BatchMap (List InterestRateSwap)) (swap_proto : InterestRateSwap) :
    BatchMap (List InterestRateSwap) :=
  let h := (get_hash_v2 swap_proto).1
  match lookupBatch m h with
  | some swaps => updateBatch m h (swaps ++ [swap_proto])
  | Option.none => m ++ [(h, [swap_proto])]

/-- Creates a dictionary of grouped protos (refined hashing). The swap_config
argument is deleted at entry in the source and has no effect. -/
def group_protos_v2 {Cfg : Type} (proto_list : List InterestRateSwap) (swap_config : Cfg) :
    BatchMap (List InterestRateSwap) :=
  let _ := swap_config
  proto_list.foldl groupStepV2 []

/-- Leg that the from_protos loop body assigns to the pay slot for one swap:
the materialised receive leg with negated notionals when the swap is flipped,
the materialised pay leg otherwise. -/
def payMaterialised (s : InterestRateSwap) : CouponLeg :=
  if (get_hash s).2 then negNotional (leg_from_proto s.receive_leg)
  else leg_from_proto s.pay_leg

/-- Leg that the from_protos loop body assigns to the receive slot for one
swap. -/
def recMaterialised (s : InterestRateSwap) : CouponLeg :=
  if (get_hash s).2 then negNotional (leg_from_proto s.pay_leg)
  else leg_from_proto s.receive_leg

/-- Batch created by from_protos when a swap hashes to a fresh key: every
list holds the one swap's data. -/
def singleBatch {Cfg : Type} (swap_config : Cfg) (s : InterestRateSwap) : SwapBatch Cfg :=
  { start_date := [dateToList s.effective_date]
    maturity_date := [dateToList s.maturity_date]
    pay_leg := payMaterialised s
    receive_leg := recMaterialised s
    swap_config := swap_config
    batch_names := [(s.metadata.id, s.metadata.instrument_type)] }

/-- One iteration of the from_protos loop: hashes the swap, materialises and
possibly flips and negates its legs, then either merges into the existing
batch (propagating any update_leg error, which aborts the whole call) or
creates a new batch at the end of the dictionary. -/
def fromProtosStep {Cfg : Type} (swap_config : Cfg) (m : BatchMap (SwapBatch Cfg))
    (swap_proto : InterestRateSwap) : Except MergeErr (BatchMap (SwapBatch Cfg)) :=
  let h := (get_hash swap_proto).1
  match lookupBatch m h with
  | some b =>
      let up := update_leg b.pay_leg (payMaterialised swap_proto)
      match up.2 with
      | some msg => Except.error msg
      | Option.none =>
          let ur := update_leg b.receive_leg (recMaterialised swap_proto)
          match ur.2 with
          | some msg => Except.error msg
          | Option.none =>
              Except.ok (updateBatch m h
                { b with
                    pay_leg := up.1
                    receive_leg := ur.1
                    start_date := b.start_date ++ [dateToList swap_proto.effective_date]
                    maturity_date := b.maturity_date ++ [dateToList swap_proto.maturity_date]
                    batch_names := b.batch_names ++
                      [(swap_proto.metadata.id, swap_proto.metadata.instrument_type)] })
  | Option.none =>
      Except.ok (m ++ [(h, singleBatch swap_config swap_proto)])

/-- Tail of the from_protos loop over the remaining protos. -/
def fromProtosAux {Cfg : Type} (swap_config : Cfg) :
    List InterestRateSwap → BatchMap (SwapBatch Cfg) →
    Except MergeErr (BatchMap (SwapBatch Cfg))
  | [], m => Except.ok m
  | s :: rest, m =>
      match fromProtosStep swap_config m s with
      | Except.error msg => Except.error msg
      | Except.ok m1 => fromProtosAux swap_config rest m1

/-- Creates a dictionary of preprocessed swap data (legacy pipeline). -/
def from_protos {Cfg : Type} (proto_list : List InterestRateSwap) (swap_config : Cfg) :
    Except MergeErr (BatchMap (SwapBatch Cfg)) :=
  fromProtosAux swap_config proto_list []

/-- Leg that the from_protos_v2 loop body assigns to the pay slot. -/
def payMaterialisedV2 (s : InterestRateSwap) : CouponLegV2 :=
  if (get_hash_v2 s).2 then negNotionalV2 (leg_from_proto_v2 s.receive_leg)
  else leg_from_proto_v2 s.pay_leg

/-- Leg that the from_protos_v2 loop body assigns to the receive slot. -/
def recMaterialisedV2 (s : InterestRateSwap) : CouponLegV2 :=
  if (get_hash_v2 s).2 then negNotionalV2 (leg_from_proto_v2 s.pay_leg)
  else leg_from_proto_v2 s.receive_leg

/-- Batch created by from_protos_v2 when a swap hashes to a fresh key. -/
def singleBatchV2 {Cfg : Type} (swap_config : Cfg) (s : InterestRateSwap) : SwapBatchV2 Cfg :=
  { start_date := [dateToList s.effective_date]
    maturity_date := [dateToList s.maturity_date]
    pay_leg := payMaterialisedV2 s
    receive_leg := recMaterialisedV2 s
    swap_config := swap_config
    batch_names := [(s.metadata.id, s.metadata.instrument_type)] }

/-- One iteration of the from_protos_v2 loop. -/
def fromProtosStepV2 {Cfg : Type} (swap_config : Cfg) (m : BatchMap (SwapBatchV2 Cfg))
    (swap_proto : InterestRateSwap) : Except MergeErr (BatchMap (SwapBatchV2 Cfg)) :=
  let h := (get_hash_v2 swap_proto).1
  match lookupBatch m h with
  | some b =>
      let up := update_leg_v2 b.pay_leg (payMaterialisedV2 swap_proto)
      match up.2 with
      | some msg => Except.error msg
      | Option.none =>
          let ur := update_leg_v2 b.receive_leg (recMaterialisedV2 swap_proto)
          match ur.2 with
          | some msg => Except.error msg
          | Option.none =>
              Except.ok (updateBatch m h
                { b with
                    pay_leg := up.1
                    receive_leg := ur.1
                    start_date := b.start_date ++ [dateToList swap_proto.effective_date]
                    maturity_date := b.maturity_date ++ [dateToList swap_proto.maturity_date]
                    batch_names := b.batch_names ++
                      [(swap_proto.metadata.id, swap_proto.metadata.instrument_type)] })
  | Option.none =>
      Except.ok (m ++ [(h, singleBatchV2 swap_config swap_proto)])

/-- Tail of the from_protos_v2 loop over the remaining protos. -/
def fromProtosAuxV2 {Cfg : Type} (swap_config : Cfg) :
    List InterestRateSwap → BatchMap (SwapBatchV2 Cfg) →
    Except MergeErr (BatchMap (SwapBatchV2 Cfg))
  | [], m => Except.ok m
  | s :: rest, m =>
      match fromProtosStepV2 swap_config m s with
      | Except.error msg => Except.error msg
      | Except.ok m1 => fromProtosAuxV2 swap_config rest m1

/-- Creates a dictionary of preprocessed swap data (refined pipeline). -/
def from_protos_v2 {Cfg : Type} (proto_list : List InterestRateSwap) (swap_config : Cfg) :
    Except MergeErr (BatchMap (SwapBatchV2 Cfg)) :=
  fromProtosAuxV2 swap_config proto_list []

/-- Notional amount of a proto leg (present on both variants). -/
def protoNotional : SwapLeg → Int
  | SwapLeg.fixed f => f.notional_amount
  | SwapLeg.floating f => f.notional_amount

/-- Rate-like scalar of a proto leg: the fixed rate of a fixed leg, the
spread of a floating leg. -/
def protoRate : SwapLeg → Int
  | SwapLeg.fixed f => f.fixed_rate
  | SwapLeg.floating f => f.spread

/-- Settlement days of a proto leg. -/
def protoSettle : SwapLeg → Int
  | SwapLeg.fixed f => f.settlement_days
  | SwapLeg.floating f => f.settlement_days

/-- Currency of a proto leg. -/
def protoCurrency : SwapLeg → Int
  | SwapLeg.fixed f => f.currency
  | SwapLeg.floating f => f.currency

/-- Rate-index name of a floating proto leg (empty for a fixed leg, which
has no index). -/
def protoIndexName : SwapLeg → String
  | SwapLeg.fixed _ => ""
  | SwapLeg.floating f => f.floating_rate_type.name

/-- Rate-index source of a floating proto leg. -/
def protoIndexSource : SwapLeg → String
  | SwapLeg.fixed _ => ""
  | SwapLeg.floating f => f.floating_rate_type.source

/-- Coupon-frequency amount of a proto leg scaled by the normaliser's
multiplier, as stored by the refined materialiser. -/
def protoCouponAmountScaled : SwapLeg → Int
  | SwapLeg.fixed f =>
      (frequency_and_multiplier f.coupon_frequency.type).2 * f.coupon_frequency.amount
  | SwapLeg.floating f =>
      (frequency_and_multiplier f.coupon_frequency.type).2 * f.coupon_frequency.amount

/-- Reset-frequency amount of a floating proto leg scaled by the normaliser's
multiplier (zero for a fixed leg, which has no reset frequency). -/
def protoResetAmountScaled : SwapLeg → Int
  | SwapLeg.fixed _ => 0
  | SwapLeg.floating f =>
      (frequency_and_multiplier f.reset_frequency.type).2 * f.reset_frequency.amount

/-- Materialised rate index of a floating proto leg, with name and source as
singleton sequences (a placeholder for a fixed leg). -/
def protoIndexMat : SwapLeg → RateIndex
  | SwapLeg.fixed _ => { type := 0, name := [], source := [] }
  | SwapLeg.floating f =>
      { type := f.floating_rate_type.type
        name := [f.floating_rate_type.name]
        source := [f.floating_rate_type.source] }

/-- True when the legacy coupon leg is the fixed variant. -/
def legIsFixed : CouponLeg → Bool
  | CouponLeg.fixed _ => true
  | CouponLeg.float _ => false

/-- Notional sequence of a legacy coupon leg. -/
def legNotionalSeq : CouponLeg → List Int
  | CouponLeg.fixed c => c.notional_amount
  | CouponLeg.float c => c.notional_amount

/-- Rate-like sequence of a legacy coupon leg: fixed rates or spreads. -/
def legRateSeq : CouponLeg → List Int
  | CouponLeg.fixed c => c.fixed_rate
  | CouponLeg.float c => c.spread

/-- Settlement-days sequence of a legacy coupon leg. -/
def legSettleSeq : CouponLeg → List Int
  | CouponLeg.fixed c => c.settlement_days
  | CouponLeg.float c => c.settlement_days

/-- Rate-index name sequence of a legacy floating coupon leg. -/
def legIndexNames : CouponLeg → List String
  | CouponLeg.fixed _ => []
  | CouponLeg.float c => c.floating_rate_type.name

/-- Rate-index source sequence of a legacy floating coupon leg. -/
def legIndexSources : CouponLeg → List String
  | CouponLeg.fixed _ => []
  | CouponLeg.float c => c.floating_rate_type.source

/-- True when the refined coupon leg is the fixed variant. -/
def legIsFixedV2 : CouponLegV2 → Bool
  | CouponLegV2.fixed _ => true
  | CouponLegV2.float _ => false

/-- Currency sequence of a refined coupon leg. -/
def legCurrencySeqV2 : CouponLegV2 → List Int
  | CouponLegV2.fixed c => c.currency
  | CouponLegV2.float c => c.currency

/-- Notional sequence of a refined coupon leg. -/
def legNotionalSeqV2 : CouponLegV2 → List Int
  | CouponLegV2.fixed c => c.notional_amount
  | CouponLegV2.float c => c.notional_amount

/-- Rate-like sequence of a refined coupon leg. -/
def legRateSeqV2 : CouponLegV2 → List Int
  | CouponLegV2.fixed c => c.fixed_rate
  | CouponLegV2.float c => c.spread

/-- Settlement-days sequence of a refined coupon leg. -/
def legSettleSeqV2 : CouponLegV2 → List Int
  | CouponLegV2.fixed c => c.settlement_days
  | CouponLegV2.float c => c.settlement_days

/-- Coupon-frequency multiplied-amount sequence of a refined coupon leg. -/
def legCouponAmtSeqV2 : CouponLegV2 → List Int
  | CouponLegV2.fixed c => c.coupon_frequency.2
  | CouponLegV2.float c => c.coupon_frequency.2

/-- Reset-frequency multiplied-amount sequence of a refined floating coupon
leg. -/
def legResetAmtSeqV2 : CouponLegV2 → List Int
  | CouponLegV2.fixed _ => []
  | CouponLegV2.float c => c.reset_frequency.2

/-- Rate-index sequence of a refined floating coupon leg. -/
def legIndexSeqV2 : CouponLegV2 → List RateIndex
  | CouponLegV2.fixed _ => []
  | CouponLegV2.float c => c.floating_rate_type

/-- Proto leg that from_protos materialises into the pay slot of a batch:
the receive leg when the swap is flipped, the pay leg otherwise. -/
def storedPayLeg (s : InterestRateSwap) : SwapLeg :=
  if (get_hash s).2 then s.receive_leg else s.pay_leg

/-- Proto leg that from_protos materialises into the receive slot. -/
def storedRecLeg (s : InterestRateSwap) : SwapLeg :=
  if (get_hash s).2 then s.pay_leg else s.receive_leg

/-- Sign applied by from_protos to the notionals of both stored legs. -/
def storedSign (s : InterestRateSwap) : Int :=
  if (get_hash s).2 then -1 else 1

/-- Proto leg that from_protos_v2 materialises into the pay slot. -/
def storedPayLegV2 (s : InterestRateSwap) : SwapLeg :=
  if (get_hash_v2 s).2 then s.receive_leg else s.pay_leg

/-- Proto leg that from_protos_v2 materialises into the receive slot. -/
def storedRecLegV2 (s : InterestRateSwap) : SwapLeg :=
  if (get_hash_v2 s).2 then s.pay_leg else s.receive_leg

/-- Sign applied by from_protos_v2 to the notionals of both stored legs. -/
def storedSignV2 (s : InterestRateSwap) : Int :=
  if (get_hash_v2 s).2 then -1 else 1

/-- Swaps of the input list, in encounter order, whose legacy bucket hash is
h. -/
def bucketContents (l : List InterestRateSwap) (h : List KeyVal) :
    List InterestRateSwap :=
  l.filter (fun s => decide ((get_hash s).1 = h))

/-- Swaps of the input list, in encounter order, whose refined bucket hash is
h. -/
def bucketContentsV2 (l : List InterestRateSwap) (h : List KeyVal) :
    List InterestRateSwap :=
  l.filter (fun s => decide ((get_hash_v2 s).1 = h))

/-- Statement that a legacy coupon leg holds exactly the data of the given
swap list, projected through proj (which stored proto leg feeds this slot)
and sgn (the flip sign): kinds agree and every sequence is the encounter-
order map of the corresponding proto field. -/
def LegAgrees (fs : List InterestRateSwap) (proj : InterestRateSwap → SwapLeg)
    (sgn : InterestRateSwap → Int) (c : CouponLeg) : Prop :=
  (∀ s ∈ fs, protoIsFixed (proj s) = legIsFixed c) ∧
  legNotionalSeq c = fs.map (fun s => sgn s * protoNotional (proj s)) ∧
  legRateSeq c = fs.map (fun s => protoRate (proj s)) ∧
  legSettleSeq c = fs.map (fun s => protoSettle (proj s)) ∧
  (legIsFixed c = false →
    legIndexNames c = fs.map (fun s => protoIndexName (proj s)) ∧
    legIndexSources c = fs.map (fun s => protoIndexSource (proj s)))

/-- Refined analogue of LegAgrees, additionally covering the currency and
frequency-amount sequences and the rate-index sequence. -/
def LegAgreesV2 (fs : List InterestRateSwap) (proj : InterestRateSwap → SwapLeg)
    (sgn : InterestRateSwap → Int) (c : CouponLegV2) : Prop :=
  (∀ s ∈ fs, protoIsFixed (proj s) = legIsFixedV2 c) ∧
  legCurrencySeqV2 c = fs.map (fun s => protoCurrency (proj s)) ∧
  legNotionalSeqV2 c = fs.map (fun s => sgn s * protoNotional (proj s)) ∧
  legRateSeqV2 c = fs.map (fun s => protoRate (proj s)) ∧
  legSettleSeqV2 c = fs.map (fun s => protoSettle (proj s)) ∧
  legCouponAmtSeqV2 c = fs.map (fun s => protoCouponAmountScaled (proj s)) ∧
  (legIsFixedV2 c = false →
    legResetAmtSeqV2 c = fs.map (fun s => protoResetAmountScaled (proj s)) ∧
    legIndexSeqV2 c = fs.map (fun s => protoIndexMat (proj s)))

/-- Statement that a legacy batch holds exactly the data of the given swap
list, in encounter order. -/
def BatchAgrees {Cfg : Type} (fs : List InterestRateSwap) (b : SwapBatch Cfg) : Prop :=
  b.start_date = fs.map (fun s => dateToList s.effective_date) ∧
  b.maturity_date = fs.map (fun s => dateToList s.maturity_date) ∧
  b.batch_names = fs.map (fun s => (s.metadata.id, s.metadata.instrument_type)) ∧
  LegAgrees fs storedPayLeg storedSign b.pay_leg ∧
  LegAgrees fs storedRecLeg storedSign b.receive_leg

/-- Statement that a refined batch holds exactly the data of the given swap
list, in encounter order. -/
def BatchAgreesV2 {Cfg : Type} (fs : List InterestRateSwap) (b : SwapBatchV2 Cfg) : Prop :=
  b.start_date = fs.map (fun s => dateToList s.effective_date) ∧
  b.maturity_date = fs.map (fun s => dateToList s.maturity_date) ∧
  b.batch_names = fs.map (fun s => (s.metadata.id, s.metadata.instrument_type)) ∧
  LegAgreesV2 fs storedPayLegV2 storedSignV2 b.pay_leg ∧
  LegAgreesV2 fs storedRecLegV2 storedSignV2 b.receive_leg

/-- Invariant of the from_protos loop: every present batch holds exactly the
data of the processed swaps hashing to its key, and absent keys have no
processed swaps. -/
def MapAgrees {Cfg : Type} (l : List InterestRateSwap) (m : BatchMap (SwapBatch Cfg)) : Prop :=
  (∀ h, lookupBatch m h = Option.none → bucketContents l h = []) ∧
  (∀ h b, lookupBatch m h = some b → BatchAgrees (bucketContents l h) b)

/-- Invariant of the from_protos_v2 loop. -/
def MapAgreesV2 {Cfg : Type} (l : List InterestRateSwap) (m : BatchMap (SwapBatchV2 Cfg)) : Prop :=
  (∀ h, lookupBatch m h = Option.none → bucketContentsV2 l h = []) ∧
  (∀ h b, lookupBatch m h = some b → BatchAgreesV2 (bucketContentsV2 l h) b)

/-- Equal-length condition of the specification for a legacy leg descriptor:
every per-swap sequence has length n. -/
def legLenOK (n : Nat) : CouponLeg → Prop
  | CouponLeg.fixed c =>
      c.notional_amount.length = n ∧ c.fixed_rate.length = n ∧
      c.settlement_days.length = n
  | CouponLeg.float c =>
      c.notional_amount.length = n ∧ c.spread.length = n ∧
      c.settlement_days.length = n ∧ c.floating_rate_type.name.length = n ∧
      c.floating_rate_type.source.length = n

/-- Equal-length condition of the specification for a refined leg
descriptor. -/
def legLenOKV2 (n : Nat) : CouponLegV2 → Prop
  | CouponLegV2.fixed c =>
      c.currency.length = n ∧ c.coupon_frequency.2.length = n ∧
      c.notional_amount.length = n ∧ c.fixed_rate.length = n ∧
      c.settlement_days.length = n
  | CouponLegV2.float c =>
      c.currency.length = n ∧ c.coupon_frequency.2.length = n ∧
      c.reset_frequency.2.length = n ∧ c.notional_amount.length = n ∧
      c.spread.length = n ∧ c.settlement_days.length = n ∧
      c.floating_rate_type.length = n

/-- Structural feature list of one leg as the specification words it for the
batch-membership claim: leg kind, coupon frequency (type and amount), reset
frequency, day-count convention, business-day rule and rate-index type
(the latter two slots only for floating legs). This definition follows the
claim text, to be compared with the source's key construction. -/
def legStructFields : SwapLeg → List KeyVal
  | SwapLeg.fixed f =>
      [KeyVal.num 1, KeyVal.num f.coupon_frequency.type,
       KeyVal.num f.coupon_frequency.amount,
       KeyVal.num f.daycount_convention, KeyVal.num f.business_day_convention]
  | SwapLeg.floating f =>
      [KeyVal.num 0, KeyVal.num f.coupon_frequency.type,
       KeyVal.num f.coupon_frequency.amount,
       KeyVal.num f.reset_frequency.type, KeyVal.num f.reset_frequency.amount,
       KeyVal.num f.daycount_convention, KeyVal.num f.business_day_convention,
       KeyVal.num f.floating_rate_type.type]

/-- Spec-worded structural equality of two swaps: identical leg feature
lists on both sides plus identical swap-level currency and holiday
calendar. -/
def structEq (s1 s2 : InterestRateSwap) : Prop :=
  legStructFields s1.pay_leg = legStructFields s2.pay_leg ∧
  legStructFields s1.receive_leg = legStructFields s2.receive_leg ∧
  s1.currency = s2.currency ∧ s1.bank_holidays = s2.bank_holidays

/-- Feature list that the refined key actually hashes per leg: leg kind,
normalised frequency types, day-count convention and business-day rule
(no amounts, no rate-index type, no currency). -/
def legStructFieldsV2 : SwapLeg → List KeyVal
  | SwapLeg.fixed f =>
      [KeyVal.num 1,
       KeyVal.num (if f.coupon_frequency.type = 5 then 3 else f.coupon_frequency.type),
       KeyVal.num f.daycount_convention, KeyVal.num f.business_day_convention]
  | SwapLeg.floating f =>
      [KeyVal.num 0,
       KeyVal.num (frequency_and_multiplier f.coupon_frequency.type).1,
       KeyVal.num (frequency_and_multiplier f.reset_frequency.type).1,
       KeyVal.num f.daycount_convention, KeyVal.num f.business_day_convention]

/-- Equality of the features the refined key actually hashes: the per-leg
refined feature lists plus the swap-level holiday calendar (the refined key
omits the currency). -/
def structEqV2 (s1 s2 : InterestRateSwap) : Prop :=
  legStructFieldsV2 s1.pay_leg = legStructFieldsV2 s2.pay_leg ∧
  legStructFieldsV2 s1.receive_leg = legStructFieldsV2 s2.receive_leg ∧
  s1.bank_holidays = s2.bank_holidays

/-- Same leg kinds on matching sides of two swaps. -/
def sameKinds (s1 s2 : InterestRateSwap) : Prop :=
  protoIsFixed s1.pay_leg = protoIsFixed s2.pay_leg ∧
  protoIsFixed s1.receive_leg = protoIsFixed s2.receive_leg

/-- Mirror of a swap: the pay and receive legs exchanged, everything else
unchanged. -/
def mirrorSwap (s : InterestRateSwap) : InterestRateSwap :=
  { s with pay_leg := s.receive_leg, receive_leg := s.pay_leg }

/-- Sample fixed leg used by the concrete witnesses. -/
def sampleFixedLeg : FixedLeg :=
  { currency := 1
    coupon_frequency := { type := 4, amount := 6 }
    notional_amount := 1000000
    fixed_rate := 31
    settlement_days := 2
    business_day_convention := 1
    daycount_convention := 1
    bank_holidays := 1 }

/-- Sample floating leg used by the concrete witnesses. -/
def sampleFloatLeg : FloatingLeg :=
  { currency := 1
    coupon_frequency := { type := 4, amount := 3 }
    reset_frequency := { type := 4, amount := 3 }
    notional_amount := 2000000
    floating_rate_type := { type := 2, name := "LIBOR_3M", source := "BBG" }
    settlement_days := 2
    business_day_convention := 1
    daycount_convention := 1
    spread := 5
    bank_holidays := 1 }

/-- Sample swap paying floating and receiving fixed (the flipped case). -/
def samplePayFloatSwap : InterestRateSwap :=
  { pay_leg := SwapLeg.floating sampleFloatLeg
    receive_leg := SwapLeg.fixed sampleFixedLeg
    currency := 1
    bank_holidays := 1
    effective_date := { year := 2020, month := 2, day := 8 }
    maturity_date := { year := 2025, month := 2, day := 8 }
    metadata := { id := "swap1", instrument_type := 2 } }

/-- Sample swap paying fixed and receiving floating (never flipped). -/
def samplePayFixedSwap : InterestRateSwap :=
  { pay_leg := SwapLeg.fixed sampleFixedLeg
    receive_leg := SwapLeg.floating sampleFloatLeg
    currency := 1
    bank_holidays := 1
    effective_date := { year := 2021, month := 3, day := 9 }
    maturity_date := { year := 2026, month := 3, day := 9 }
    metadata := { id := "swap2", instrument_type := 2 } }

/-- Sample swap equal to samplePayFixedSwap except for its swap-level
currency, used to refute the currency part of the refined keying claim. -/
def samplePayFixedSwapOtherCurrency : InterestRateSwap :=
  { samplePayFixedSwap with currency := 42 }

/-- Sample rate index with type 2. -/
def sampleIndexA : RateIndex := { type := 2, name := ["LIBOR_3M"], source := ["BBG"] }

/-- Sample rate index with type 7, incompatible with sampleIndexA. -/
def sampleIndexB : RateIndex := { type := 7, name := ["SOFR"], source := ["FED"] }

/-- Sample input list: a flipped swap and its economic mirror, which share a
bucket. -/
def sampleProtoList : List InterestRateSwap := [samplePayFloatSwap, samplePayFixedSwap]

/-- Bucket hash of the sample swaps under the legacy keying. -/
def sampleHashKey : List KeyVal := (get_hash samplePayFloatSwap).1

/-- Result of running from_protos on the sample list (with config 0). -/
def sampleBatchMap : BatchMap (SwapBatch Int) :=
  match from_protos sampleProtoList (0 : Int) with
  | Except.ok m => m
  | Except.error _ => []

/-- The one batch produced for the sample list. -/
def sampleBatch : SwapBatch Int :=
  match lookupBatch sampleBatchMap sampleHashKey with
  | some b => b
  | Option.none => singleBatch 0 samplePayFloatSwap

lemma keyHead_get_keys (leg : SwapLeg) :
    keyHeadIsNone (get_keys leg).1 = !(protoIsFixed leg) := by
  cases leg <;> rfl

lemma keyHead_get_keys_v2 (leg : SwapLeg) :
    keyHeadIsNone (get_keys_v2 leg).1 = !(protoIsFixed leg) := by
  cases leg <;> rfl

/-- C2: for every pair of swap legs, the canonicaliser (legacy and refined)
returns flip equal to true together with the reversed concatenation, receive
key then pay key, exactly when the pay leg is floating and the receive leg is
fixed; in every other case, including fixed-fixed and float-float pairs, it
returns flip equal to false and the forward concatenation, pay key then
receive key. -/
theorem claim2_canonical_flip (leg_1 leg_2 : SwapLeg) :
    (protoIsFixed leg_1 = false ∧ protoIsFixed leg_2 = true →
      get_legs_hash_key leg_1 leg_2 =
        (true, ((get_keys leg_2).1 ++ (get_keys leg_2).2) ++
               ((get_keys leg_1).1 ++ (get_keys leg_1).2)) ∧
      get_legs_hash_key_v2 leg_1 leg_2 =
        (true, ((get_keys_v2 leg_2).1 ++ (get_keys_v2 leg_2).2) ++
               ((get_keys_v2 leg_1).1 ++ (get_keys_v2 leg_1).2))) ∧
    (¬(protoIsFixed leg_1 = false ∧ protoIsFixed leg_2 = true) →
      get_legs_hash_key leg_1 leg_2 =
        (false, ((get_keys leg_1).1 ++ (get_keys leg_1).2) ++
                ((get_keys leg_2).1 ++ (get_keys leg_2).2)) ∧
      get_legs_hash_key_v2 leg_1 leg_2 =
        (false, ((get_keys_v2 leg_1).1 ++ (get_keys_v2 leg_1).2) ++
                ((get_keys_v2 leg_2).1 ++ (get_keys_v2 leg_2).2))) := by
  cases leg_1 <;> cases leg_2 <;>
    refine ⟨fun hk => ?_, fun hk => ?_⟩ <;>
    simp [protoIsFixed] at hk ⊢ <;>
    exact ⟨rfl, rfl⟩

/-- Witness for C2 at a concrete floating pay leg and fixed receive leg. -/
theorem claim2_canonical_flip_witness :
    get_legs_hash_key (SwapLeg.floating sampleFloatLeg) (SwapLeg.fixed sampleFixedLeg) =
      (true, ((get_keys (SwapLeg.fixed sampleFixedLeg)).1 ++
              (get_keys (SwapLeg.fixed sampleFixedLeg)).2) ++
             ((get_keys (SwapLeg.floating sampleFloatLeg)).1 ++
              (get_keys (SwapLeg.floating sampleFloatLeg)).2)) :=
  ((claim2_canonical_flip (SwapLeg.floating sampleFloatLeg)
      (SwapLeg.fixed sampleFixedLeg)).1 ⟨rfl, rfl⟩).1

/-- C6: update_leg and update_leg_v2 raise the kind-mismatch error exactly
when one leg is fixed and the other floating, and in that case return the
current leg completely unmodified (no silent coercion). -/
theorem claim6_update_leg_kind_mismatch :
    (∀ current_leg leg : CouponLeg,
      ((update_leg current_leg leg).2 = some MergeErr.typeMismatch ↔
        legIsFixed current_leg ≠ legIsFixed leg) ∧
      (legIsFixed current_leg ≠ legIsFixed leg →
        (update_leg current_leg leg).1 = current_leg)) ∧
    (∀ current_leg leg : CouponLegV2,
      ((update_leg_v2 current_leg leg).2 = some MergeErr.typeMismatch ↔
        legIsFixedV2 current_leg ≠ legIsFixedV2 leg) ∧
      (legIsFixedV2 current_leg ≠ legIsFixedV2 leg →
        (update_leg_v2 current_leg leg).1 = current_leg)) := by
  constructor
  · intro c l
    cases c with
    | fixed cf =>
      cases l with
      | fixed lf => simp [update_leg, legIsFixed]
      | float lf => simp [update_leg, legIsFixed]
    | float cf =>
      cases l with
      | fixed lf => simp [update_leg, legIsFixed]
      | float lf =>
        by_cases ht : cf.floating_rate_type.type = lf.floating_rate_type.type <;>
          simp [update_leg, legIsFixed, update_rate_index, ht]
  · intro c l
    cases c <;> cases l <;> simp [update_leg_v2, legIsFixedV2]

/-- Witness for C6 at a concrete fixed current leg and floating new leg. -/
theorem claim6_update_leg_kind_mismatch_witness :
    legIsFixed (leg_from_proto (SwapLeg.fixed sampleFixedLeg)) ≠
      legIsFixed (leg_from_proto (SwapLeg.floating sampleFloatLeg)) ∧
    (update_leg (leg_from_proto (SwapLeg.fixed sampleFixedLeg))
        (leg_from_proto (SwapLeg.floating sampleFloatLeg))).1 =
      leg_from_proto (SwapLeg.fixed sampleFixedLeg) :=
  ⟨by decide,
   (claim6_update_leg_kind_mismatch.1 (leg_from_proto (SwapLeg.fixed sampleFixedLeg))
      (leg_from_proto (SwapLeg.floating sampleFloatLeg))).2 (by decide)⟩

/-- C7: update_rate_index raises, with no mutation, an error naming both
index types exactly when the two types differ; when they are equal it
concatenates the name and source sequences of the second index onto the
first and raises no error. -/
theorem claim7_update_rate_index (current_index index : RateIndex) :
    (current_index.type ≠ index.type →
      update_rate_index current_index index =
        (current_index, some (MergeErr.cannotJoin current_index.type index.type)) ∧
      renderMergeErr (MergeErr.cannotJoin current_index.type index.type) =
        "Can not join " ++ toString current_index.type ++ " and " ++ toString index.type) ∧
    (current_index.type = index.type →
      update_rate_index current_index index =
        ({ current_index with
            name := current_index.name ++ index.name
            source := current_index.source ++ index.source }, none)) := by
  refine ⟨fun h => ⟨?_, rfl⟩, fun h => ?_⟩ <;> simp [update_rate_index, h]

/-- Witness for C7 at two concrete indices with different types. -/
theorem claim7_update_rate_index_witness :
    sampleIndexA.type ≠ sampleIndexB.type ∧
    update_rate_index sampleIndexA sampleIndexB =
      (sampleIndexA, some (MergeErr.cannotJoin 2 7)) :=
  ⟨by decide, ((claim7_update_rate_index sampleIndexA sampleIndexB).1 (by decide)).1⟩

/-- C8: the keying and hashing pipeline is deterministic: computing the
canonical key and hash of a swap twice yields identical results, and the
hasher produces identical digests on structurally equal key tuples. -/
theorem claim8_hash_deterministic :
    (∀ s : InterestRateSwap,
      get_hash s = get_hash s ∧ get_hash_v2 s = get_hash_v2 s ∧
      get_legs_hash_key s.pay_leg s.receive_leg =
        get_legs_hash_key s.pay_leg s.receive_leg) ∧
    (∀ k1 k2 : List KeyVal, k1 = k2 → hasher k1 = hasher k2) :=
  ⟨fun _ => ⟨rfl, rfl, rfl⟩, fun _ _ h => congrArg hasher h⟩

/-- Witness for C8 at a concrete key tuple. -/
theorem claim8_hash_deterministic_witness :
    ([KeyVal.num 1] : List KeyVal) = [KeyVal.num 1] ∧
    hasher [KeyVal.num 1] = hasher [KeyVal.num 1] :=
  ⟨rfl, claim8_hash_deterministic.2 [KeyVal.num 1] [KeyVal.num 1] rfl⟩

/-- C9: the frequency normaliser maps the legacy code 5 to the canonical
type 3 with multiplier 1, returns every other code unchanged with
multiplier 1, and is a total function (no error paths); consequently codes 5
and 3 produce the same refined fixed-leg batching key. -/
theorem claim9_frequency_normaliser :
    frequency_and_multiplier 5 = (3, 1) ∧
    (∀ freq_type : Int, freq_type ≠ 5 →
      frequency_and_multiplier freq_type = (freq_type, 1)) ∧
    (∀ leg : FixedLeg,
      fixed_leg_key_v2 { leg with coupon_frequency := { leg.coupon_frequency with type := 5 } } =
      fixed_leg_key_v2 { leg with coupon_frequency := { leg.coupon_frequency with type := 3 } }) := by
  refine ⟨rfl, fun t ht => ?_, fun leg => ?_⟩
  · simp [frequency_and_multiplier, ht]
  · simp [fixed_leg_key_v2]

/-- Witness for C9 at the concrete code 4 and the sample fixed leg. -/
theorem claim9_frequency_normaliser_witness :
    frequency_and_multiplier 4 = (4, 1) ∧
    fixed_leg_key_v2
        { sampleFixedLeg with
            coupon_frequency := { sampleFixedLeg.coupon_frequency with type := 5 } } =
      fixed_leg_key_v2
        { sampleFixedLeg with
            coupon_frequency := { sampleFixedLeg.coupon_frequency with type := 3 } } :=
  ⟨claim9_frequency_normaliser.2.1 4 (by decide),
   claim9_frequency_normaliser.2.2 sampleFixedLeg⟩

/-- C10: the swap_config argument of group_protos and group_protos_v2 is
discarded and has no effect on the grouping: any two config values (even of
different types) give identical output mappings. -/
theorem claim10_config_irrelevant :
    ∀ {Cfg1 Cfg2 : Type} (swap_config_1 : Cfg1) (swap_config_2 : Cfg2)
      (proto_list : List InterestRateSwap),
      group_protos proto_list swap_config_1 = group_protos proto_list swap_config_2 ∧
      group_protos_v2 proto_list swap_config_1 = group_protos_v2 proto_list swap_config_2 :=
  fun _ _ _ => ⟨rfl, rfl⟩

lemma replicate_seven_none :
    List.replicate 7 KeyVal.none =
      [KeyVal.none, KeyVal.none, KeyVal.none, KeyVal.none,
       KeyVal.none, KeyVal.none, KeyVal.none] := rfl

lemma replicate_four_none :
    List.replicate 4 KeyVal.none =
      [KeyVal.none, KeyVal.none, KeyVal.none, KeyVal.none] := rfl

lemma replicate_three_none :
    List.replicate 3 KeyVal.none = [KeyVal.none, KeyVal.none, KeyVal.none] := rfl

lemma get_legs_hash_key_flip (leg_1 leg_2 : SwapLeg) :
    (get_legs_hash_key leg_1 leg_2).1 = (!protoIsFixed leg_1 && protoIsFixed leg_2) := by
  cases leg_1 <;> cases leg_2 <;> rfl

lemma get_legs_hash_key_v2_flip (leg_1 leg_2 : SwapLeg) :
    (get_legs_hash_key_v2 leg_1 leg_2).1 = (!protoIsFixed leg_1 && protoIsFixed leg_2) := by
  cases leg_1 <;> cases leg_2 <;> rfl

lemma legStructFields_isFixed_eq {a b : SwapLeg}
    (h : legStructFields a = legStructFields b) : protoIsFixed a = protoIsFixed b := by
  cases a <;> cases b <;> simp_all [legStructFields, protoIsFixed]

lemma legStructFieldsV2_of_legStructFields {a b : SwapLeg}
    (h : legStructFields a = legStructFields b) :
    legStructFieldsV2 a = legStructFieldsV2 b := by
  cases a <;> cases b <;>
    simp_all [legStructFields, legStructFieldsV2, frequency_and_multiplier]

lemma hash_eq_iff_structEq (s1 s2 : InterestRateSwap) (hk : sameKinds s1 s2) :
    (get_hash s1).1 = (get_hash s2).1 ↔ structEq s1 s2 := by
  obtain ⟨pk, rk⟩ := hk
  obtain ⟨p1, r1, cu1, bh1, e1, m1, md1⟩ := s1
  obtain ⟨p2, r2, cu2, bh2, e2, m2, md2⟩ := s2
  cases p1 <;> cases p2 <;> cases r1 <;> cases r2 <;>
    simp_all [get_hash, get_legs_hash_key, get_keys, keyHeadIsNone, hasher,
      fixed_leg_key, floating_leg_key, legStructFields, structEq, protoIsFixed,
      replicate_four_none, replicate_seven_none] <;> tauto

lemma hash_v2_eq_iff_structEqV2 (s1 s2 : InterestRateSwap) (hk : sameKinds s1 s2) :
    (get_hash_v2 s1).1 = (get_hash_v2 s2).1 ↔ structEqV2 s1 s2 := by
  obtain ⟨pk, rk⟩ := hk
  obtain ⟨p1, r1, cu1, bh1, e1, m1, md1⟩ := s1
  obtain ⟨p2, r2, cu2, bh2, e2, m2, md2⟩ := s2
  cases p1 <;> cases p2 <;> cases r1 <;> cases r2 <;>
    simp_all [get_hash_v2, get_legs_hash_key_v2, get_keys_v2, keyHeadIsNone, hasher,
      fixed_leg_key_v2, floating_leg_key_v2, legStructFieldsV2, structEqV2, protoIsFixed,
      frequency_and_multiplier, replicate_three_none, replicate_four_none] <;> tauto

/-- C1 counterexample: two concrete swaps that agree on every structural
field of the claim except the swap-level currency (where they differ)
nevertheless receive the same refined bucket hash, because get_hash_v2 does
not include the currency in its hashed key. -/
theorem claim1_batch_membership_counterexample :
    legStructFields samplePayFixedSwap.pay_leg =
      legStructFields samplePayFixedSwapOtherCurrency.pay_leg ∧
    legStructFields samplePayFixedSwap.receive_leg =
      legStructFields samplePayFixedSwapOtherCurrency.receive_leg ∧
    samplePayFixedSwap.bank_holidays = samplePayFixedSwapOtherCurrency.bank_holidays ∧
    samplePayFixedSwap.currency ≠ samplePayFixedSwapOtherCurrency.currency ∧
    (get_hash_v2 samplePayFixedSwap).1 = (get_hash_v2 samplePayFixedSwapOtherCurrency).1 := by
  decide

/-- C1 (amended): swaps with identical structural fields receive the same
bucket hash under both keying versions; under the legacy version, swaps with
the same leg kinds receive the same hash exactly when all structural fields
of the claim (frequencies with amounts, day-count, business-day rule,
rate-index type, swap-level currency and holiday calendar) coincide; under
the refined version the hashed key omits the currency, the frequency
amounts and the rate-index type, so equal hashes correspond exactly to
equality of the normalised frequency types, day-count, business-day rule and
swap-level holiday calendar. -/
theorem claim1_batch_membership_amended :
    (∀ s1 s2 : InterestRateSwap, structEq s1 s2 →
      get_hash s1 = get_hash s2 ∧ get_hash_v2 s1 = get_hash_v2 s2) ∧
    (∀ s1 s2 : InterestRateSwap, sameKinds s1 s2 →
      ((get_hash s1).1 = (get_hash s2).1 ↔ structEq s1 s2)) ∧
    (∀ s1 s2 : InterestRateSwap, sameKinds s1 s2 →
      ((get_hash_v2 s1).1 = (get_hash_v2 s2).1 ↔ structEqV2 s1 s2)) := by
  refine ⟨fun s1 s2 hs => ?_, hash_eq_iff_structEq, hash_v2_eq_iff_structEqV2⟩
  have hk : sameKinds s1 s2 :=
    ⟨legStructFields_isFixed_eq hs.1, legStructFields_isFixed_eq hs.2.1⟩
  have hv2 : structEqV2 s1 s2 :=
    ⟨legStructFieldsV2_of_legStructFields hs.1,
     legStructFieldsV2_of_legStructFields hs.2.1, hs.2.2.2⟩
  constructor
  · refine Prod.ext ?_ ?_
    · exact (hash_eq_iff_structEq s1 s2 hk).2 hs
    · simp only [get_hash]
      rw [get_legs_hash_key_flip, get_legs_hash_key_flip, hk.1, hk.2]
  · refine Prod.ext ?_ ?_
    · exact (hash_v2_eq_iff_structEqV2 s1 s2 hk).2 hv2
    · simp only [get_hash_v2]
      rw [get_legs_hash_key_v2_flip, get_legs_hash_key_v2_flip, hk.1, hk.2]

/-- Witness for the amended C1 at two concrete structurally equal swaps. -/
theorem claim1_batch_membership_amended_witness :
    structEq samplePayFixedSwap samplePayFixedSwap ∧
    get_hash samplePayFixedSwap = get_hash samplePayFixedSwap ∧
    get_hash_v2 samplePayFixedSwap = get_hash_v2 samplePayFixedSwap :=
  ⟨⟨rfl, rfl, rfl, rfl⟩,
   claim1_batch_membership_amended.1 samplePayFixedSwap samplePayFixedSwap
     ⟨rfl, rfl, rfl, rfl⟩⟩

/-- C3: a swap paying floating and receiving fixed gets the same bucket hash
as its mirror (pay and receive exchanged, same economic terms) under both
keying versions; its flip flag is true, and processing it materialises the
receive leg into the pay slot and the pay leg into the receive slot with
every notional negated, so its stored notionals are the negation of the
mirrored swap's stored notionals. -/
theorem claim3_flip_mirror {Cfg : Type} (swap_config : Cfg) (s : InterestRateSwap)
    (hp : protoIsFixed s.pay_leg = false) (hr : protoIsFixed s.receive_leg = true) :
    (get_hash s).1 = (get_hash (mirrorSwap s)).1 ∧
    (get_hash s).2 = true ∧
    (get_hash (mirrorSwap s)).2 = false ∧
    (get_hash_v2 s).1 = (get_hash_v2 (mirrorSwap s)).1 ∧
    (get_hash_v2 s).2 = true ∧
    from_protos [s] swap_config = Except.ok [((get_hash s).1,
      { start_date := [dateToList s.effective_date]
        maturity_date := [dateToList s.maturity_date]
        pay_leg := negNotional (leg_from_proto s.receive_leg)
        receive_leg := negNotional (leg_from_proto s.pay_leg)
        swap_config := swap_config
        batch_names := [(s.metadata.id, s.metadata.instrument_type)] })] ∧
    from_protos [mirrorSwap s] swap_config = Except.ok [((get_hash s).1,
      { start_date := [dateToList s.effective_date]
        maturity_date := [dateToList s.maturity_date]
        pay_leg := leg_from_proto s.receive_leg
        receive_leg := leg_from_proto s.pay_leg
        swap_config := swap_config
        batch_names := [(s.metadata.id, s.metadata.instrument_type)] })] ∧
    from_protos_v2 [s] swap_config = Except.ok [((get_hash_v2 s).1,
      { start_date := [dateToList s.effective_date]
        maturity_date := [dateToList s.maturity_date]
        pay_leg := negNotionalV2 (leg_from_proto_v2 s.receive_leg)
        receive_leg := negNotionalV2 (leg_from_proto_v2 s.pay_leg)
        swap_config := swap_config
        batch_names := [(s.metadata.id, s.metadata.instrument_type)] })] ∧
    from_protos_v2 [mirrorSwap s] swap_config = Except.ok [((get_hash_v2 s).1,
      { start_date := [dateToList s.effective_date]
        maturity_date := [dateToList s.maturity_date]
        pay_leg := leg_from_proto_v2 s.receive_leg
        receive_leg := leg_from_proto_v2 s.pay_leg
        swap_config := swap_config
        batch_names := [(s.metadata.id, s.metadata.instrument_type)] })] ∧
    legNotionalSeq (negNotional (leg_from_proto s.receive_leg)) =
      (legNotionalSeq (leg_from_proto s.receive_leg)).map (fun el => -el) ∧
    legNotionalSeq (negNotional (leg_from_proto s.pay_leg)) =
      (legNotionalSeq (leg_from_proto s.pay_leg)).map (fun el => -el) := by
  obtain ⟨p, r, cu, bh, ed, md, mt⟩ := s
  cases p with
  | fixed f => simp [protoIsFixed] at hp
  | floating f =>
    cases r with
    | floating g => simp [protoIsFixed] at hr
    | fixed g =>
      exact ⟨rfl, rfl, rfl, rfl, rfl, rfl, rfl, rfl, rfl, rfl, rfl⟩

/-- Witness for C3 at the concrete pay-floating receive-fixed sample swap. -/
theorem claim3_flip_mirror_witness :
    protoIsFixed samplePayFloatSwap.pay_leg = false ∧
    protoIsFixed samplePayFloatSwap.receive_leg = true ∧
    (get_hash samplePayFloatSwap).1 = (get_hash (mirrorSwap samplePayFloatSwap)).1 :=
  ⟨by decide, by decide,
   (claim3_flip_mirror (0 : Int) samplePayFloatSwap (by decide) (by decide)).1⟩

lemma lookupBatch_update_self {α : Type} {m : BatchMap α} {h : List KeyVal}
    (hl : (lookupBatch m h).isSome) (b' : α) :
    lookupBatch (updateBatch m h b') h = some b' := by
  induction m with
  | nil => simp [lookupBatch] at hl
  | cons p rest ih =>
    by_cases hp : p.1 = h
    · simp [updateBatch, lookupBatch, hp]
    · simp [updateBatch, lookupBatch, hp] at hl ⊢
      exact ih hl

lemma lookupBatch_update_ne {α : Type} (m : BatchMap α) (h : List KeyVal) (b' : α)
    {h' : List KeyVal} (hne : h' ≠ h) :
    lookupBatch (updateBatch m h b') h' = lookupBatch m h' := by
  induction m with
  | nil => rfl
  | cons p rest ih =>
    have hne2 : ¬(h = h') := fun e => hne e.symm
    by_cases hp : p.1 = h
    · simp [updateBatch, lookupBatch, hp, hne2]
      exact ih
    · by_cases hp' : p.1 = h'
      · simp [updateBatch, lookupBatch, hp, hp', hne]
      · simp [updateBatch, lookupBatch, hp, hp']
        exact ih

lemma lookupBatch_append_last {α : Type} (m : BatchMap α) (h : List KeyVal) (b : α)
    (h' : List KeyVal) :
    lookupBatch (m ++ [(h, b)]) h' =
      (match lookupBatch m h' with
       | some x => some x
       | Option.none => if h = h' then some b else Option.none) := by
  induction m with
  | nil => simp [lookupBatch]
  | cons p rest ih =>
    by_cases hp : p.1 = h' <;> simp [lookupBatch, hp, ih]

lemma bucketContents_append (l : List InterestRateSwap) (s : InterestRateSwap)
    (h : List KeyVal) :
    bucketContents (l ++ [s]) h =
      bucketContents l h ++ (if (get_hash s).1 = h then [s] else []) := by
  by_cases hs : (get_hash s).1 = h <;>
    simp [bucketContents, List.filter_append, hs]

lemma bucketContentsV2_append (l : List InterestRateSwap) (s : InterestRateSwap)
    (h : List KeyVal) :
    bucketContentsV2 (l ++ [s]) h =
      bucketContentsV2 l h ++ (if (get_hash_v2 s).1 = h then [s] else []) := by
  by_cases hs : (get_hash_v2 s).1 = h <;>
    simp [bucketContentsV2, List.filter_append, hs]

lemma LegAgrees_pay_single (s : InterestRateSwap) :
    LegAgrees [s] storedPayLeg storedSign (payMaterialised s) := by
  by_cases hf : (get_hash s).2
  · cases hr : s.receive_leg <;>
      simp [LegAgrees, payMaterialised, storedPayLeg, storedSign, hf, hr,
        negNotional, leg_from_proto, legIsFixed, legNotionalSeq, legRateSeq,
        legSettleSeq, legIndexNames, legIndexSources, protoIsFixed, protoNotional,
        protoRate, protoSettle, protoIndexName, protoIndexSource]
  · cases hp : s.pay_leg <;>
      simp [LegAgrees, payMaterialised, storedPayLeg, storedSign, hf, hp,
        negNotional, leg_from_proto, legIsFixed, legNotionalSeq, legRateSeq,
        legSettleSeq, legIndexNames, legIndexSources, protoIsFixed, protoNotional,
        protoRate, protoSettle, protoIndexName, protoIndexSource]

lemma LegAgrees_rec_single (s : InterestRateSwap) :
    LegAgrees [s] storedRecLeg storedSign (recMaterialised s) := by
  by_cases hf : (get_hash s).2
  · cases hp : s.pay_leg <;>
      simp [LegAgrees, recMaterialised, storedRecLeg, storedSign, hf, hp,
        negNotional, leg_from_proto, legIsFixed, legNotionalSeq, legRateSeq,
        legSettleSeq, legIndexNames, legIndexSources, protoIsFixed, protoNotional,
        protoRate, protoSettle, protoIndexName, protoIndexSource]
  · cases hr : s.receive_leg <;>
      simp [LegAgrees, recMaterialised, storedRecLeg, storedSign, hf, hr,
        negNotional, leg_from_proto, legIsFixed, legNotionalSeq, legRateSeq,
        legSettleSeq, legIndexNames, legIndexSources, protoIsFixed, protoNotional,
        protoRate, protoSettle, protoIndexName, protoIndexSource]

lemma LegAgrees_update {fs : List InterestRateSwap} {s : InterestRateSwap}
    {proj : InterestRateSwap → SwapLeg} {sgn : InterestRateSwap → Int}
    {cur inc : CouponLeg}
    (hcur : LegAgrees fs proj sgn cur) (hinc : LegAgrees [s] proj sgn inc)
    (hok : (update_leg cur inc).2 = Option.none) :
    LegAgrees (fs ++ [s]) proj sgn (update_leg cur inc).1 := by
  obtain ⟨hk1, hn1, hr1, hs1, hc1⟩ := hcur
  obtain ⟨hk2, hn2, hr2, hs2, hc2⟩ := hinc
  cases cur with
  | fixed c =>
    cases inc with
    | float l => simp [update_leg] at hok
    | fixed l =>
      simp only [legNotionalSeq, legRateSeq, legSettleSeq, List.map_cons,
        List.map_nil] at hn1 hr1 hs1 hn2 hr2 hs2
      refine ⟨?_, ?_, ?_, ?_, ?_⟩
      · intro s' hs'
        rcases List.mem_append.1 hs' with h' | h'
        · simpa [update_leg, legIsFixed] using hk1 s' h'
        · simpa [update_leg, legIsFixed] using hk2 s' h'
      · simp [update_leg, legNotionalSeq, hn1, hn2]
      · simp [update_leg, legRateSeq, hr1, hr2]
      · simp [update_leg, legSettleSeq, hs1, hs2]
      · simp [update_leg, legIsFixed]
  | float c =>
    cases inc with
    | fixed l => simp [update_leg] at hok
    | float l =>
      by_cases ht : c.floating_rate_type.type = l.floating_rate_type.type
      · have hcn := hc1 rfl
        have hln := hc2 rfl
        simp only [legNotionalSeq, legRateSeq, legSettleSeq, legIndexNames,
          legIndexSources, List.map_cons, List.map_nil] at hn1 hr1 hs1 hn2 hr2 hs2 hcn hln
        refine ⟨?_, ?_, ?_, ?_, ?_⟩
        · intro s' hs'
          rcases List.mem_append.1 hs' with h' | h'
          · simpa [update_leg, update_rate_index, ht, legIsFixed] using hk1 s' h'
          · simpa [update_leg, update_rate_index, ht, legIsFixed] using hk2 s' h'
        · simp [update_leg, update_rate_index, ht, legNotionalSeq, hn1, hn2]
        · simp [update_leg, update_rate_index, ht, legRateSeq, hr1, hr2]
        · simp [update_leg, update_rate_index, ht, legSettleSeq, hs1, hs2]
        · intro _
          constructor
          · simp [update_leg, update_rate_index, ht, legIndexNames, hcn.1, hln.1]
          · simp [update_leg, update_rate_index, ht, legIndexSources, hcn.2, hln.2]
      · simp [update_leg, update_rate_index, ht] at hok

lemma BatchAgrees_single {Cfg : Type} (cfg : Cfg) (s : InterestRateSwap) :
    BatchAgrees [s] (singleBatch cfg s) := by
  refine ⟨?_, ?_, ?_, LegAgrees_pay_single s, LegAgrees_rec_single s⟩ <;>
    simp [singleBatch]

lemma BatchAgrees_update {Cfg : Type} {fs : List InterestRateSwap} {s : InterestRateSwap}
    {b : SwapBatch Cfg} (hb : BatchAgrees fs b)
    (hup : (update_leg b.pay_leg (payMaterialised s)).2 = Option.none)
    (hur : (update_leg b.receive_leg (recMaterialised s)).2 = Option.none) :
    BatchAgrees (fs ++ [s])
      { b with
          pay_leg := (update_leg b.pay_leg (payMaterialised s)).1
          receive_leg := (update_leg b.receive_leg (recMaterialised s)).1
          start_date := b.start_date ++ [dateToList s.effective_date]
          maturity_date := b.maturity_date ++ [dateToList s.maturity_date]
          batch_names := b.batch_names ++ [(s.metadata.id, s.metadata.instrument_type)] } := by
  obtain ⟨h1, h2, h3, h4, h5⟩ := hb
  refine ⟨?_, ?_, ?_, ?_, ?_⟩
  · simp [h1]
  · simp [h2]
  · simp [h3]
  · exact LegAgrees_update h4 (LegAgrees_pay_single s) hup
  · exact LegAgrees_update h5 (LegAgrees_rec_single s) hur

lemma fromProtosStep_master {Cfg : Type} {cfg : Cfg} {processed : List InterestRateSwap}
    {m m1 : BatchMap (SwapBatch Cfg)} {s : InterestRateSwap}
    (hinv : MapAgrees processed m) (hst : fromProtosStep cfg m s = Except.ok m1) :
    MapAgrees (processed ++ [s]) m1 := by
  obtain ⟨hA, hB⟩ := hinv
  cases hl : lookupBatch m (get_hash s).1 with
  | none =>
    have hm1 : m ++ [((get_hash s).1, singleBatch cfg s)] = m1 := by
      simpa [fromProtosStep, hl] using hst
    subst hm1
    constructor
    · intro h' hnone
      rw [lookupBatch_append_last] at hnone
      cases hmh : lookupBatch m h' with
      | some x => rw [hmh] at hnone; simp at hnone
      | none =>
        rw [hmh] at hnone
        by_cases he : (get_hash s).1 = h'
        · simp [he] at hnone
        · rw [bucketContents_append]
          simp [he, hA h' hmh]
    · intro h' b' hsome
      rw [lookupBatch_append_last] at hsome
      cases hmh : lookupBatch m h' with
      | some x =>
        rw [hmh] at hsome
        have hbx : x = b' := by simpa using hsome
        subst hbx
        have hne : (get_hash s).1 ≠ h' := by
          intro he
          rw [he] at hl
          rw [hl] at hmh
          exact Option.noConfusion hmh
        rw [bucketContents_append]
        simpa [hne] using hB h' x hmh
      | none =>
        rw [hmh] at hsome
        by_cases he : (get_hash s).1 = h'
        · rw [if_pos he] at hsome
          have hb' : singleBatch cfg s = b' := by simpa using hsome
          subst hb'
          rw [bucketContents_append]
          simp [he, hA h' hmh]
          exact BatchAgrees_single cfg s
        · rw [if_neg he] at hsome
          exact Option.noConfusion hsome
  | some b =>
    cases hup : (update_leg b.pay_leg (payMaterialised s)).2 with
    | some msg => simp [fromProtosStep, hl, hup] at hst
    | none =>
      cases hur : (update_leg b.receive_leg (recMaterialised s)).2 with
      | some msg => simp [fromProtosStep, hl, hup, hur] at hst
      | none =>
        have hm1 : updateBatch m (get_hash s).1
            { b with
                pay_leg := (update_leg b.pay_leg (payMaterialised s)).1
                receive_leg := (update_leg b.receive_leg (recMaterialised s)).1
                start_date := b.start_date ++ [dateToList s.effective_date]
                maturity_date := b.maturity_date ++ [dateToList s.maturity_date]
                batch_names := b.batch_names ++
                  [(s.metadata.id, s.metadata.instrument_type)] } = m1 := by
          simpa [fromProtosStep, hl, hup, hur] using hst
        subst hm1
        constructor
        · intro h' hnone
          have hne : h' ≠ (get_hash s).1 := by
            intro he
            rw [he, lookupBatch_update_self (by simp [hl])] at hnone
            exact Option.noConfusion hnone
          rw [lookupBatch_update_ne _ _ _ hne] at hnone
          rw [bucketContents_append]
          have hne2 : ¬((get_hash s).1 = h') := fun e => hne e.symm
          simp [hne2, hA h' hnone]
        · intro h' b'' hsome
          by_cases he : h' = (get_hash s).1
          · subst he
            rw [lookupBatch_update_self (by simp [hl])] at hsome
            have hb'' := Option.some.inj hsome
            subst hb''
            rw [bucketContents_append]
            simp only [if_pos rfl]
            exact BatchAgrees_update (hB _ b hl) hup hur
          · rw [lookupBatch_update_ne _ _ _ he] at hsome
            rw [bucketContents_append]
            have hne2 : ¬((get_hash s).1 = h') := fun e => he e.symm
            simpa [hne2] using hB h' b'' hsome

lemma fromProtosAux_master {Cfg : Type} (cfg : Cfg) (rest : List InterestRateSwap) :
    ∀ (processed : List InterestRateSwap) (m m1 : BatchMap (SwapBatch Cfg)),
      MapAgrees processed m → fromProtosAux cfg rest m = Except.ok m1 →
      MapAgrees (processed ++ rest) m1 := by
  induction rest with
  | nil =>
    intro processed m m1 hinv hok
    have hm : m = m1 := by simpa [fromProtosAux] using hok
    subst hm
    simpa using hinv
  | cons s rest ih =>
    intro processed m m1 hinv hok
    cases hst : fromProtosStep cfg m s with
    | error e => simp [fromProtosAux, hst] at hok
    | ok mnext =>
      simp only [fromProtosAux, hst] at hok
      have h1 := fromProtosStep_master hinv hst
      have h2 := ih (processed ++ [s]) mnext m1 h1 hok
      simpa using h2

lemma from_protos_master {Cfg : Type} (cfg : Cfg) (l : List InterestRateSwap)
    (m : BatchMap (SwapBatch Cfg)) (hok : from_protos l cfg = Except.ok m) :
    ∀ h b, lookupBatch m h = some b → BatchAgrees (bucketContents l h) b := by
  have h0 : MapAgrees ([] : List InterestRateSwap) ([] : BatchMap (SwapBatch Cfg)) := by
    constructor
    · intro h _
      rfl
    · intro h b hb
      simp [lookupBatch] at hb
  have hm := fromProtosAux_master cfg l [] [] m h0 hok
  simpa using hm.2

/-- C5: swaps that fall into the same legacy bucket contribute their data in
encounter order: every numeric sequence of the batch's leg descriptors
(notional with flip sign, fixed rate or spread, settlement days) and the
start-date, maturity-date and name metadata lists are exactly the encounter-
order maps over the input swaps hashing to that bucket. -/
theorem claim5_merge_order {Cfg : Type} (swap_config : Cfg)
    (proto_list : List InterestRateSwap) (m : BatchMap (SwapBatch Cfg))
    (h : List KeyVal) (b : SwapBatch Cfg)
    (hok : from_protos proto_list swap_config = Except.ok m)
    (hb : lookupBatch m h = some b) :
    b.start_date =
      (bucketContents proto_list h).map (fun s => dateToList s.effective_date) ∧
    b.maturity_date =
      (bucketContents proto_list h).map (fun s => dateToList s.maturity_date) ∧
    b.batch_names =
      (bucketContents proto_list h).map
        (fun s => (s.metadata.id, s.metadata.instrument_type)) ∧
    legNotionalSeq b.pay_leg =
      (bucketContents proto_list h).map
        (fun s => storedSign s * protoNotional (storedPayLeg s)) ∧
    legRateSeq b.pay_leg =
      (bucketContents proto_list h).map (fun s => protoRate (storedPayLeg s)) ∧
    legSettleSeq b.pay_leg =
      (bucketContents proto_list h).map (fun s => protoSettle (storedPayLeg s)) ∧
    legNotionalSeq b.receive_leg =
      (bucketContents proto_list h).map
        (fun s => storedSign s * protoNotional (storedRecLeg s)) ∧
    legRateSeq b.receive_leg =
      (bucketContents proto_list h).map (fun s => protoRate (storedRecLeg s)) ∧
    legSettleSeq b.receive_leg =
      (bucketContents proto_list h).map (fun s => protoSettle (storedRecLeg s)) := by
  obtain ⟨h1, h2, h3, h4, h5⟩ := from_protos_master swap_config proto_list m hok h b hb
  exact ⟨h1, h2, h3, h4.2.1, h4.2.2.1, h4.2.2.2.1, h5.2.1, h5.2.2.1, h5.2.2.2.1⟩

/-- Witness for C5 on the concrete two-swap sample list. -/
theorem claim5_merge_order_witness :
    from_protos sampleProtoList (0 : Int) = Except.ok sampleBatchMap ∧
    lookupBatch sampleBatchMap sampleHashKey = some sampleBatch ∧
    sampleBatch.start_date =
      (bucketContents sampleProtoList sampleHashKey).map
        (fun s => dateToList s.effective_date) :=
  ⟨rfl, rfl,
   (claim5_merge_order (0 : Int) sampleProtoList sampleBatchMap sampleHashKey
      sampleBatch rfl rfl).1⟩

lemma LegAgreesV2_pay_single (s : InterestRateSwap) :
    LegAgreesV2 [s] storedPayLegV2 storedSignV2 (payMaterialisedV2 s) := by
  by_cases hf : (get_hash_v2 s).2
  · cases hr : s.receive_leg <;>
      simp [LegAgreesV2, payMaterialisedV2, storedPayLegV2, storedSignV2, hf, hr,
        negNotionalV2, leg_from_proto_v2, legIsFixedV2, legCurrencySeqV2,
        legNotionalSeqV2, legRateSeqV2, legSettleSeqV2, legCouponAmtSeqV2,
        legResetAmtSeqV2, legIndexSeqV2, protoIsFixed, protoCurrency, protoNotional,
        protoRate, protoSettle, protoCouponAmountScaled, protoResetAmountScaled,
        protoIndexMat]
  · cases hp : s.pay_leg <;>
      simp [LegAgreesV2, payMaterialisedV2, storedPayLegV2, storedSignV2, hf, hp,
        negNotionalV2, leg_from_proto_v2, legIsFixedV2, legCurrencySeqV2,
        legNotionalSeqV2, legRateSeqV2, legSettleSeqV2, legCouponAmtSeqV2,
        legResetAmtSeqV2, legIndexSeqV2, protoIsFixed, protoCurrency, protoNotional,
        protoRate, protoSettle, protoCouponAmountScaled, protoResetAmountScaled,
        protoIndexMat]

lemma LegAgreesV2_rec_single (s : InterestRateSwap) :
    LegAgreesV2 [s] storedRecLegV2 storedSignV2 (recMaterialisedV2 s) := by
  by_cases hf : (get_hash_v2 s).2
  · cases hp : s.pay_leg <;>
      simp [LegAgreesV2, recMaterialisedV2, storedRecLegV2, storedSignV2, hf, hp,
        negNotionalV2, leg_from_proto_v2, legIsFixedV2, legCurrencySeqV2,
        legNotionalSeqV2, legRateSeqV2, legSettleSeqV2, legCouponAmtSeqV2,
        legResetAmtSeqV2, legIndexSeqV2, protoIsFixed, protoCurrency, protoNotional,
        protoRate, protoSettle, protoCouponAmountScaled, protoResetAmountScaled,
        protoIndexMat]
  · cases hr : s.receive_leg <;>
      simp [LegAgreesV2, recMaterialisedV2, storedRecLegV2, storedSignV2, hf, hr,
        negNotionalV2, leg_from_proto_v2, legIsFixedV2, legCurrencySeqV2,
        legNotionalSeqV2, legRateSeqV2, legSettleSeqV2, legCouponAmtSeqV2,
        legResetAmtSeqV2, legIndexSeqV2, protoIsFixed, protoCurrency, protoNotional,
        protoRate, protoSettle, protoCouponAmountScaled, protoResetAmountScaled,
        protoIndexMat]

lemma LegAgreesV2_update {fs : List InterestRateSwap} {s : InterestRateSwap}
    {proj : InterestRateSwap → SwapLeg} {sgn : InterestRateSwap → Int}
    {cur inc : CouponLegV2}
    (hcur : LegAgreesV2 fs proj sgn cur) (hinc : LegAgreesV2 [s] proj sgn inc)
    (hok : (update_leg_v2 cur inc).2 = Option.none) :
    LegAgreesV2 (fs ++ [s]) proj sgn (update_leg_v2 cur inc).1 := by
  obtain ⟨hk1, hcu1, hn1, hr1, hs1, hf1, hc1⟩ := hcur
  obtain ⟨hk2, hcu2, hn2, hr2, hs2, hf2, hc2⟩ := hinc
  cases cur with
  | fixed c =>
    cases inc with
    | float l => simp [update_leg_v2] at hok
    | fixed l =>
      simp only [legCurrencySeqV2, legNotionalSeqV2, legRateSeqV2, legSettleSeqV2,
        legCouponAmtSeqV2, List.map_cons, List.map_nil] at hcu1 hn1 hr1 hs1 hf1 hcu2 hn2 hr2 hs2 hf2
      refine ⟨?_, ?_, ?_, ?_, ?_, ?_, ?_⟩
      · intro s' hs'
        rcases List.mem_append.1 hs' with h' | h'
        · simpa [update_leg_v2, legIsFixedV2] using hk1 s' h'
        · simpa [update_leg_v2, legIsFixedV2] using hk2 s' h'
      · simp [update_leg_v2, legCurrencySeqV2, hcu1, hcu2]
      · simp [update_leg_v2, legNotionalSeqV2, hn1, hn2]
      · simp [update_leg_v2, legRateSeqV2, hr1, hr2]
      · simp [update_leg_v2, legSettleSeqV2, hs1, hs2]
      · simp [update_leg_v2, legCouponAmtSeqV2, hf1, hf2]
      · simp [update_leg_v2, legIsFixedV2]
  | float c =>
    cases inc with
    | fixed l => simp [update_leg_v2] at hok
    | float l =>
      have hcr := hc1 rfl
      have hlr := hc2 rfl
      simp only [legCurrencySeqV2, legNotionalSeqV2, legRateSeqV2, legSettleSeqV2,
        legCouponAmtSeqV2, legResetAmtSeqV2, legIndexSeqV2, List.map_cons,
        List.map_nil] at hcu1 hn1 hr1 hs1 hf1 hcu2 hn2 hr2 hs2 hf2 hcr hlr
      refine ⟨?_, ?_, ?_, ?_, ?_, ?_, ?_⟩
      · intro s' hs'
        rcases List.mem_append.1 hs' with h' | h'
        · simpa [update_leg_v2, legIsFixedV2] using hk1 s' h'
        · simpa [update_leg_v2, legIsFixedV2] using hk2 s' h'
      · simp [update_leg_v2, legCurrencySeqV2, hcu1, hcu2]
      · simp [update_leg_v2, legNotionalSeqV2, hn1, hn2]
      · simp [update_leg_v2, legRateSeqV2, hr1, hr2]
      · simp [update_leg_v2, legSettleSeqV2, hs1, hs2]
      · simp [update_leg_v2, legCouponAmtSeqV2, hf1, hf2]
      · intro _
        constructor
        · simp [update_leg_v2, legResetAmtSeqV2, hcr.1, hlr.1]
        · simp [update_leg_v2, legIndexSeqV2, hcr.2, hlr.2]

lemma BatchAgreesV2_single {Cfg : Type} (cfg : Cfg) (s : InterestRateSwap) :
    BatchAgreesV2 [s] (singleBatchV2 cfg s) := by
  refine ⟨?_, ?_, ?_, LegAgreesV2_pay_single s, LegAgreesV2_rec_single s⟩ <;>
    simp [singleBatchV2]

lemma BatchAgreesV2_update {Cfg : Type} {fs : List InterestRateSwap}
    {s : InterestRateSwap} {b : SwapBatchV2 Cfg} (hb : BatchAgreesV2 fs b)
    (hup : (update_leg_v2 b.pay_leg (payMaterialisedV2 s)).2 = Option.none)
    (hur : (update_leg_v2 b.receive_leg (recMaterialisedV2 s)).2 = Option.none) :
    BatchAgreesV2 (fs ++ [s])
      { b with
          pay_leg := (update_leg_v2 b.pay_leg (payMaterialisedV2 s)).1
          receive_leg := (update_leg_v2 b.receive_leg (recMaterialisedV2 s)).1
          start_date := b.start_date ++ [dateToList s.effective_date]
          maturity_date := b.maturity_date ++ [dateToList s.maturity_date]
          batch_names := b.batch_names ++ [(s.metadata.id, s.metadata.instrument_type)] } := by
  obtain ⟨h1, h2, h3, h4, h5⟩ := hb
  refine ⟨?_, ?_, ?_, ?_, ?_⟩
  · simp [h1]
  · simp [h2]
  · simp [h3]
  · exact LegAgreesV2_update h4 (LegAgreesV2_pay_single s) hup
  · exact LegAgreesV2_update h5 (LegAgreesV2_rec_single s) hur

lemma fromProtosStepV2_master {Cfg : Type} {cfg : Cfg} {processed : List InterestRateSwap}
    {m m1 : BatchMap (SwapBatchV2 Cfg)} {s : InterestRateSwap}
    (hinv : MapAgreesV2 processed m) (hst : fromProtosStepV2 cfg m s = Except.ok m1) :
    MapAgreesV2 (processed ++ [s]) m1 := by
  obtain ⟨hA, hB⟩ := hinv
  cases hl : lookupBatch m (get_hash_v2 s).1 with
  | none =>
    have hm1 : m ++ [((get_hash_v2 s).1, singleBatchV2 cfg s)] = m1 := by
      simpa [fromProtosStepV2, hl] using hst
    subst hm1
    constructor
    · intro h' hnone
      rw [lookupBatch_append_last] at hnone
      cases hmh : lookupBatch m h' with
      | some x => rw [hmh] at hnone; simp at hnone
      | none =>
        rw [hmh] at hnone
        by_cases he : (get_hash_v2 s).1 = h'
        · simp [he] at hnone
        · rw [bucketContentsV2_append]
          simp [he, hA h' hmh]
    · intro h' b' hsome
      rw [lookupBatch_append_last] at hsome
      cases hmh : lookupBatch m h' with
      | some x =>
        rw [hmh] at hsome
        have hbx : x = b' := by simpa using hsome
        subst hbx
        have hne : (get_hash_v2 s).1 ≠ h' := by
          intro he
          rw [he] at hl
          rw [hl] at hmh
          exact Option.noConfusion hmh
        rw [bucketContentsV2_append]
        simpa [hne] using hB h' x hmh
      | none =>
        rw [hmh] at hsome
        by_cases he : (get_hash_v2 s).1 = h'
        · rw [if_pos he] at hsome
          have hb' : singleBatchV2 cfg s = b' := by simpa using hsome
          subst hb'
          rw [bucketContentsV2_append]
          simp [he, hA h' hmh]
          exact BatchAgreesV2_single cfg s
        · rw [if_neg he] at hsome
          exact Option.noConfusion hsome
  | some b =>
    cases hup : (update_leg_v2 b.pay_leg (payMaterialisedV2 s)).2 with
    | some msg => simp [fromProtosStepV2, hl, hup] at hst
    | none =>
      cases hur : (update_leg_v2 b.receive_leg (recMaterialisedV2 s)).2 with
      | some msg => simp [fromProtosStepV2, hl, hup, hur] at hst
      | none =>
        have hm1 : updateBatch m (get_hash_v2 s).1
            { b with
                pay_leg := (update_leg_v2 b.pay_leg (payMaterialisedV2 s)).1
                receive_leg := (update_leg_v2 b.receive_leg (recMaterialisedV2 s)).1
                start_date := b.start_date ++ [dateToList s.effective_date]
                maturity_date := b.maturity_date ++ [dateToList s.maturity_date]
                batch_names := b.batch_names ++
                  [(s.metadata.id, s.metadata.instrument_type)] } = m1 := by
          simpa [fromProtosStepV2, hl, hup, hur] using hst
        subst hm1
        constructor
        · intro h' hnone
          have hne : h' ≠ (get_hash_v2 s).1 := by
            intro he
            rw [he, lookupBatch_update_self (by simp [hl])] at hnone
            exact Option.noConfusion hnone
          rw [lookupBatch_update_ne _ _ _ hne] at hnone
          rw [bucketContentsV2_append]
          have hne2 : ¬((get_hash_v2 s).1 = h') := fun e => hne e.symm
          simp [hne2, hA h' hnone]
        · intro h' b'' hsome
          by_cases he : h' = (get_hash_v2 s).1
          · subst he
            rw [lookupBatch_update_self (by simp [hl])] at hsome
            have hb'' := Option.some.inj hsome
            subst hb''
            rw [bucketContentsV2_append]
            simp only [if_pos rfl]
            exact BatchAgreesV2_update (hB _ b hl) hup hur
          · rw [lookupBatch_update_ne _ _ _ he] at hsome
            rw [bucketContentsV2_append]
            have hne2 : ¬((get_hash_v2 s).1 = h') := fun e => he e.symm
            simpa [hne2] using hB h' b'' hsome

lemma fromProtosAuxV2_master {Cfg : Type} (cfg : Cfg) (rest : List InterestRateSwap) :
    ∀ (processed : List InterestRateSwap) (m m1 : BatchMap (SwapBatchV2 Cfg)),
      MapAgreesV2 processed m → fromProtosAuxV2 cfg rest m = Except.ok m1 →
      MapAgreesV2 (processed ++ rest) m1 := by
  induction rest with
  | nil =>
    intro processed m m1 hinv hok
    have hm : m = m1 := by simpa [fromProtosAuxV2] using hok
    subst hm
    simpa using hinv
  | cons s rest ih =>
    intro processed m m1 hinv hok
    cases hst : fromProtosStepV2 cfg m s with
    | error e => simp [fromProtosAuxV2, hst] at hok
    | ok mnext =>
      simp only [fromProtosAuxV2, hst] at hok
      have h1 := fromProtosStepV2_master hinv hst
      have h2 := ih (processed ++ [s]) mnext m1 h1 hok
      simpa using h2

lemma from_protos_v2_master {Cfg : Type} (cfg : Cfg) (l : List InterestRateSwap)
    (m : BatchMap (SwapBatchV2 Cfg)) (hok : from_protos_v2 l cfg = Except.ok m) :
    ∀ h b, lookupBatch m h = some b → BatchAgreesV2 (bucketContentsV2 l h) b := by
  have h0 : MapAgreesV2 ([] : List InterestRateSwap) ([] : BatchMap (SwapBatchV2 Cfg)) := by
    constructor
    · intro h _
      rfl
    · intro h b hb
      simp [lookupBatch] at hb
  have hm := fromProtosAuxV2_master cfg l [] [] m h0 hok
  simpa using hm.2

lemma legLenOK_of_LegAgrees {fs : List InterestRateSwap}
    {proj : InterestRateSwap → SwapLeg} {sgn : InterestRateSwap → Int}
    {c : CouponLeg} (h : LegAgrees fs proj sgn c) : legLenOK fs.length c := by
  obtain ⟨hk, hn, hr, hs, hcond⟩ := h
  cases c with
  | fixed cc =>
    simp only [legNotionalSeq, legRateSeq, legSettleSeq] at hn hr hs
    simp only [legLenOK]
    exact ⟨by rw [hn]; simp, by rw [hr]; simp, by rw [hs]; simp⟩
  | float cc =>
    obtain ⟨hna, hso⟩ := hcond rfl
    simp only [legNotionalSeq, legRateSeq, legSettleSeq, legIndexNames,
      legIndexSources] at hn hr hs hna hso
    simp only [legLenOK]
    exact ⟨by rw [hn]; simp, by rw [hr]; simp, by rw [hs]; simp,
           by rw [hna]; simp, by rw [hso]; simp⟩

lemma legLenOKV2_of_LegAgreesV2 {fs : List InterestRateSwap}
    {proj : InterestRateSwap → SwapLeg} {sgn : InterestRateSwap → Int}
    {c : CouponLegV2} (h : LegAgreesV2 fs proj sgn c) : legLenOKV2 fs.length c := by
  obtain ⟨hk, hcu, hn, hr, hs, hf, hcond⟩ := h
  cases c with
  | fixed cc =>
    simp only [legCurrencySeqV2, legNotionalSeqV2, legRateSeqV2, legSettleSeqV2,
      legCouponAmtSeqV2] at hcu hn hr hs hf
    simp only [legLenOKV2]
    exact ⟨by rw [hcu]; simp, by rw [hf]; simp, by rw [hn]; simp,
           by rw [hr]; simp, by rw [hs]; simp⟩
  | float cc =>
    obtain ⟨hra, hix⟩ := hcond rfl
    simp only [legCurrencySeqV2, legNotionalSeqV2, legRateSeqV2, legSettleSeqV2,
      legCouponAmtSeqV2, legResetAmtSeqV2, legIndexSeqV2] at hcu hn hr hs hf hra hix
    simp only [legLenOKV2]
    exact ⟨by rw [hcu]; simp, by rw [hf]; simp, by rw [hra]; simp,
           by rw [hn]; simp, by rw [hr]; simp, by rw [hs]; simp,
           by rw [hix]; simp⟩

/-- C4: after from_protos or from_protos_v2 succeeds, every batch holds
equal-length per-swap sequences in each leg descriptor (notional, fixed rate
or spread, settlement days, rate-index name and source, and in the refined
version also currency and the frequency-multiplier lists), and that common
length is the number of swaps merged into the batch, which is also the
length of the batch's start-date, maturity-date and batch-name lists. -/
theorem claim4_equal_lengths :
    (∀ {Cfg : Type} (swap_config : Cfg) (proto_list : List InterestRateSwap)
       (m : BatchMap (SwapBatch Cfg)) (h : List KeyVal) (b : SwapBatch Cfg),
       from_protos proto_list swap_config = Except.ok m →
       lookupBatch m h = some b →
       b.start_date.length = (bucketContents proto_list h).length ∧
       b.maturity_date.length = (bucketContents proto_list h).length ∧
       b.batch_names.length = (bucketContents proto_list h).length ∧
       legLenOK (bucketContents proto_list h).length b.pay_leg ∧
       legLenOK (bucketContents proto_list h).length b.receive_leg) ∧
    (∀ {Cfg : Type} (swap_config : Cfg) (proto_list : List InterestRateSwap)
       (m : BatchMap (SwapBatchV2 Cfg)) (h : List KeyVal) (b : SwapBatchV2 Cfg),
       from_protos_v2 proto_list swap_config = Except.ok m →
       lookupBatch m h = some b →
       b.start_date.length = (bucketContentsV2 proto_list h).length ∧
       b.maturity_date.length = (bucketContentsV2 proto_list h).length ∧
       b.batch_names.length = (bucketContentsV2 proto_list h).length ∧
       legLenOKV2 (bucketContentsV2 proto_list h).length b.pay_leg ∧
       legLenOKV2 (bucketContentsV2 proto_list h).length b.receive_leg) := by
  constructor
  · intro Cfg cfg l m h b hok hb
    obtain ⟨h1, h2, h3, h4, h5⟩ := from_protos_master cfg l m hok h b hb
    exact ⟨by rw [h1]; simp, by rw [h2]; simp, by rw [h3]; simp,
           legLenOK_of_LegAgrees h4, legLenOK_of_LegAgrees h5⟩
  · intro Cfg cfg l m h b hok hb
    obtain ⟨h1, h2, h3, h4, h5⟩ := from_protos_v2_master cfg l m hok h b hb
    exact ⟨by rw [h1]; simp, by rw [h2]; simp, by rw [h3]; simp,
           legLenOKV2_of_LegAgreesV2 h4, legLenOKV2_of_LegAgreesV2 h5⟩

/-- Witness for C4 on the concrete two-swap sample list. -/
theorem claim4_equal_lengths_witness :
    from_protos sampleProtoList (0 : Int) = Except.ok sampleBatchMap ∧
    lookupBatch sampleBatchMap sampleHashKey = some sampleBatch ∧
    sampleBatch.start_date.length = (bucketContents sampleProtoList sampleHashKey).length :=
  ⟨rfl, rfl,
   (claim4_equal_lengths.1 (0 : Int) sampleProtoList sampleBatchMap sampleHashKey
      sampleBatch rfl rfl).1⟩

end ProtoUtils
